import Mathlib

/-!
# Playout scheduler of the SignalGenerator sample

A shallow embedding of `Samples/SignalGenerator/SignalGenerator.cpp` (DeckLink SDK 11.3, Linux):
the cadence computed by `startRunning`, the per-frame timecode track selection and pattern
alternation of `scheduleNextFrame`, the audio feed of `writeNextAudioSamples`, the teardown of
`stopRunning`, frame creation (`CreateOutputFrame`, `GetRowBytes`, `FillColourBars`), and the
metadata queries of `Samples/SignalGenHDR/HDRVideoFrame.cpp`.

Conventions of the embedding.

* The member variables of `SignalGenerator` become the fields of `State`; every operation is a
  function from the state (and from the results the device returns to the calls the operation
  makes) to the new state and the list of device calls it issued, in program order.
* A `goto bail` after a failed call is rendered by `Event.seq`: the calls that would have
  followed the failed one are not issued.
* `frameDuration` and `frameTimescale` are the signed time values filled in by `GetFrameRate`;
  they are integers here and the C operators `/` and `%` on them are `Int.tdiv` and `Int.tmod`
  (truncation towards zero), and so are the members computed from them (`framesPerSecond`,
  `dropFrames`, the audio lengths).  The two counters are natural numbers.  The widths of the
  member variables are declared in `SignalGenerator.h`, which is not among the sources, so
  no narrowing is applied to them.
* Calls that only touch the user interface (`setText`, `enableInterface`, `QMessageBox`), the
  `printf` of `scheduleNextFrame`, the `Release` of display mode objects and the tone fill
  `FillSine` are left out of the call list.
-/

namespace SignalGenerator

/-! ## Enumerations of the device interface -/

/-- The test signal chosen in the output-signal popup: `kOutputSignalPip`, `kOutputSignalDrop`. -/
inductive OutputSignal
  | pip
  | drop
  deriving DecidableEq, Repr

/-- The display modes `startRunning` tells apart (`bmdModeNTSC`, `bmdModeNTSC2398`,
`bmdModePAL`); every other mode is `other` with its four-character code. -/
inductive DisplayModeId
  | ntsc
  | ntsc2398
  | pal
  | other (code : Nat)
  deriving DecidableEq, Repr

/-- The timecode formats used by the sample (`bmdTimecodeVITC`, `bmdTimecodeRP188Any`,
`bmdTimecodeRP188VITC1`, `bmdTimecodeRP188VITC2`, `bmdTimecodeRP188HighFrameRate`). -/
inductive TimecodeFormat
  | vitc
  | rp188Any
  | rp188VITC1
  | rp188VITC2
  | rp188HighFrameRate
  deriving DecidableEq, Repr

/-- The timecode flags used by the sample: `bmdTimecodeFlagDefault`, `bmdTimecodeFieldMark`. -/
inductive TimecodeFlags
  | flagDefault
  | fieldMark
  deriving DecidableEq, Repr

/-- The value of `GetFieldDominance` of a display mode. -/
inductive FieldDominance
  | unknownFieldDominance
  | lowerFieldFirst
  | upperFieldFirst
  | progressiveFrame
  | progressiveSegmentedFrame
  deriving DecidableEq, Repr

/-- The pixel formats `GetRowBytes` tells apart; every other format is `other`. -/
inductive PixelFormat
  | format8BitYUV
  | format10BitYUV
  | format8BitARGB
  | format8BitBGRA
  | format10BitRGB
  | other (code : Nat)
  deriving DecidableEq, Repr

/-- The output flag `startRunning` passes to `EnableVideoOutput`. -/
inductive VideoOutputFlags
  | outputVITC
  | outputRP188
  deriving DecidableEq, Repr

/-- Which of the two pattern frames a call refers to (`videoFrameBars`, `videoFrameBlack`). -/
inductive Pattern
  | bars
  | black
  deriving DecidableEq, Repr

/-- A frame handed out by `CreateVideoFrame`, identified by a number. -/
abbrev FrameId := Nat

/-- What `startRunning` reads from the display mode object. -/
structure DisplayMode where
  width : Nat
  height : Nat
  frameDuration : Int
  frameTimescale : Int
  deriving DecidableEq, Repr

/-! ## Timecode -/

/-- The running timecode: hours, minutes, seconds, frame number within the second, and the
two constructor arguments (frames per second, drop-frame count). -/
structure Timecode where
  fps : Nat
  dropFrames : Nat
  hours : Nat
  minutes : Nat
  seconds : Nat
  frames : Nat
  deriving DecidableEq, Repr

/-- The timecode `new Timecode(framesPerSecond, dropFrames)` starts from. -/
def Timecode.new (fps dropFrames : Nat) : Timecode :=
  { fps := fps, dropFrames := dropFrames, hours := 0, minutes := 0, seconds := 0, frames := 0 }

/-- Modelled from the spec: class `Timecode` lives in `SignalGenerator.h`, which is not among
the sources.  Section 4.1: `advance()` increments the frame counter; on overflow past
framesPerSecond it rolls into seconds, minutes and hours (wrapping at 24 h); at the start of
every minute not divisible by 10 the frame counter starts at the drop-frame count. -/
def Timecode.update (tc : Timecode) : Timecode :=
  if tc.frames + 1 < tc.fps then
    { tc with frames := tc.frames + 1 }
  else if tc.seconds + 1 < 60 then
    { tc with frames := 0, seconds := tc.seconds + 1 }
  else
    let minutes := if tc.minutes + 1 < 60 then tc.minutes + 1 else 0
    let hours :=
      if tc.minutes + 1 < 60 then tc.hours
      else if tc.hours + 1 < 24 then tc.hours + 1 else 0
    { tc with
      frames := if minutes % 10 ≠ 0 then tc.dropFrames else 0
      seconds := 0
      minutes := minutes
      hours := hours }

/-! ## Cadence computed by `startRunning` -/

/-- Modelled from the spec: the value of `bmdAudioSampleRate48kHz`, declared in the device
interface header (section 4.4: 48 kHz sampling). -/
def bmdAudioSampleRate48kHz : Nat := 48000

/-- Line 584: `(frameTimescale + (frameDuration-1)) / frameDuration`. -/
def framesPerSecondOf (frameDuration frameTimescale : Int) : Int :=
  (frameTimescale + (frameDuration - 1)).tdiv frameDuration

/-- Lines 587-590: the drop-frame count. -/
def dropFramesOf (frameDuration frameTimescale : Int) : Int :=
  if frameDuration = 1001 ∧ frameTimescale.tmod 30000 = 0 then
    2 * frameTimescale.tdiv 30000
  else
    0

/-- Line 631: `(audioSampleRate * frameDuration) / frameTimescale`. -/
def audioSamplesPerFrameOf (audioSampleRate : Nat) (frameDuration frameTimescale : Int) : Int :=
  ((audioSampleRate : Int) * frameDuration).tdiv frameTimescale

/-- Line 632: `(framesPerSecond * audioSampleRate * frameDuration) / frameTimescale`. -/
def audioBufferSampleLengthOf (framesPerSecond : Int) (audioSampleRate : Nat)
    (frameDuration frameTimescale : Int) : Int :=
  (framesPerSecond * (audioSampleRate : Int) * frameDuration).tdiv frameTimescale

/-! ## State and device calls -/

/-- The member variables of `SignalGenerator` the scheduler reads and writes.  `timeCode` is
a pointer in the source; it is allocated by `startRunning` before the first frame is
scheduled, so it is a value here.  `audioBuffer` records whether the pointer is non-null. -/
structure State where
  running : Bool
  scheduledPlaybackStopped : Bool
  selectedDisplayMode : DisplayModeId
  outputSignal : OutputSignal
  audioChannelCount : Nat
  audioSampleDepth : Nat
  audioSampleRate : Nat
  frameWidth : Nat
  frameHeight : Nat
  frameDuration : Int
  frameTimescale : Int
  framesPerSecond : Int
  dropFrames : Int
  hfrtcSupported : Bool
  timeCodeFormat : TimecodeFormat
  timeCode : Timecode
  videoFrameBlack : Option FrameId
  videoFrameBars : Option FrameId
  audioBuffer : Bool
  audioSamplesPerFrame : Int
  audioBufferSampleLength : Int
  totalFramesScheduled : Nat
  totalAudioSecondsScheduled : Nat
  deriving DecidableEq, Repr

/-- The state the constructor `SignalGenerator::SignalGenerator` leaves (members it does not
set are zero here) with the given display mode selected. -/
def State.initial (mode : DisplayModeId) : State :=
  { running := false
    scheduledPlaybackStopped := false
    selectedDisplayMode := mode
    outputSignal := .pip
    audioChannelCount := 0
    audioSampleDepth := 0
    audioSampleRate := 0
    frameWidth := 0
    frameHeight := 0
    frameDuration := 0
    frameTimescale := 0
    framesPerSecond := 0
    dropFrames := 0
    hfrtcSupported := false
    timeCodeFormat := .vitc
    timeCode := Timecode.new 0 0
    videoFrameBlack := none
    videoFrameBars := none
    audioBuffer := false
    audioSamplesPerFrame := 0
    audioBufferSampleLength := 0
    totalFramesScheduled := 0
    totalAudioSecondsScheduled := 0 }

/-- The calls made on the device, on frames and on the C library. -/
inductive Call
  | setScreenPreviewCallback (installed : Bool)
  | getDisplayMode (mode : DisplayModeId)
  | queryAttributes
  | getFlagHFRTC
  | releaseAttributes
  | enableVideoOutput (mode : DisplayModeId) (flags : VideoOutputFlags)
  | enableAudioOutput (sampleRate sampleDepth channelCount : Nat)
  | malloc (bytes : Int)
  | createConversionInstance
  | releaseConversionInstance
  | createVideoFrame (width height : Nat) (rowBytes : Int) (format : PixelFormat)
  | fillFrame (pattern : Pattern) (frame : FrameId)
  | convertFrame (source destination : FrameId)
  | addRef (frame : FrameId)
  | release (frame : FrameId)
  | setTimecodeFromComponents (frame : Option FrameId) (format : TimecodeFormat)
      (hours minutes seconds frames : Nat) (flags : TimecodeFlags)
  | scheduleVideoFrame (frame : Option FrameId) (displayTime displayDuration timeScale : Int)
  | beginAudioPreroll
  | scheduleAudioSamples (buffer : Bool) (sampleFrameCount streamTime : Int) (timeScale : Nat)
  | stopScheduledPlayback
  | waitPlaybackStopped
  | disableAudioOutput
  | disableVideoOutput
  | free
  deriving DecidableEq, Repr

/-- A call together with whether the device reported success (`S_OK`, or a non-null
result).  Calls whose result the source ignores carry `true`. -/
structure Event where
  call : Call
  ok : Bool
  deriving DecidableEq, Repr

/-- A call followed by `rest`, unless it failed: `if (result != S_OK) goto bail;`. -/
def Event.seq (call : Call) (ok : Bool) (rest : List Event) : List Event :=
  ⟨call, ok⟩ :: (if ok then rest else [])

/-! ## `scheduleNextFrame` -/

/-- Lines 735-748: which pattern frame becomes `currentFrame`. -/
def selectPattern (outputSignal : OutputSignal) (totalFramesScheduled : Nat)
    (framesPerSecond : Int) : Pattern :=
  match outputSignal with
  | .pip => if (totalFramesScheduled : Int).tmod framesPerSecond = 0 then .bars else .black
  | .drop => if (totalFramesScheduled : Int).tmod framesPerSecond = 0 then .black else .bars

/-- The frame pointer `currentFrame` of `scheduleNextFrame`. -/
def currentFrame (s : State) : Option FrameId :=
  match selectPattern s.outputSignal s.totalFramesScheduled s.framesPerSecond with
  | .bars => s.videoFrameBars
  | .black => s.videoFrameBlack

/-- The locals `setVITC1Timecode`, `setVITC2Timecode` and `frames` after lines 790-811. -/
structure TrackSelection where
  setVITC1Timecode : Bool
  setVITC2Timecode : Bool
  frames : Nat
  deriving DecidableEq, Repr

/-- Lines 790-811: the RP188 sub-tracks chosen from field dominance and frame rate. -/
def selectTracks (dominance : FieldDominance) (framesPerSecond : Int) (frames : Nat) :
    TrackSelection :=
  if dominance ≠ .progressiveFrame then
    { setVITC1Timecode := true, setVITC2Timecode := true, frames := frames }
  else if framesPerSecond ≤ 30 then
    { setVITC1Timecode := true, setVITC2Timecode := false, frames := frames }
  else if framesPerSecond ≤ 60 then
    if frames &&& 1 = 0 then
      { setVITC1Timecode := true, setVITC2Timecode := false, frames := frames >>> 1 }
    else
      { setVITC1Timecode := false, setVITC2Timecode := true, frames := frames >>> 1 }
  else
    { setVITC1Timecode := false, setVITC2Timecode := false, frames := frames }

/-- What the device returns to the calls of one `scheduleNextFrame`.  `displayMode` is the
field dominance of the mode returned by `GetDisplayMode`, or `none` when that call fails. -/
structure FrameResults where
  setVITC : Bool
  setHFRTC : Bool
  displayMode : Option FieldDominance
  setVITC1 : Bool
  setVITC2 : Bool
  scheduleVideoFrame : Bool
  deriving DecidableEq, Repr

/-- Every call of the frame succeeds, in a mode of the given field dominance. -/
def FrameResults.allOk (dominance : FieldDominance) : FrameResults :=
  { setVITC := true, setHFRTC := true, displayMode := some dominance, setVITC1 := true,
    setVITC2 := true, scheduleVideoFrame := true }

/-- Lines 750-843: the timecode embed calls of one frame, followed by `rest` when none of
them failed. -/
def timecodeCalls (r : FrameResults) (s : State) (rest : List Event) : List Event :=
  let frame := currentFrame s
  let tc := s.timeCode
  if s.timeCodeFormat = .vitc then
    Event.seq (.setTimecodeFromComponents frame .vitc tc.hours tc.minutes tc.seconds tc.frames
      .flagDefault) r.setVITC rest
  else
    let frames := tc.frames
    let afterHFRTC (rest : List Event) : List Event :=
      if s.hfrtcSupported then
        Event.seq (.setTimecodeFromComponents frame .rp188HighFrameRate tc.hours tc.minutes
          tc.seconds frames .flagDefault) r.setHFRTC rest
      else
        rest
    afterHFRTC <|
      match r.displayMode with
      | none => Event.seq (.getDisplayMode s.selectedDisplayMode) false rest
      | some dominance =>
        let sel := selectTracks dominance s.framesPerSecond frames
        let afterVITC1 (rest : List Event) : List Event :=
          if sel.setVITC1Timecode then
            Event.seq (.setTimecodeFromComponents frame .rp188VITC1 tc.hours tc.minutes
              tc.seconds sel.frames .flagDefault) r.setVITC1 rest
          else
            rest
        let afterVITC2 (rest : List Event) : List Event :=
          if sel.setVITC2Timecode then
            Event.seq (.setTimecodeFromComponents frame .rp188VITC2 tc.hours tc.minutes
              tc.seconds sel.frames .fieldMark) r.setVITC2 rest
          else
            rest
        Event.seq (.getDisplayMode s.selectedDisplayMode) true (afterVITC1 (afterVITC2 rest))

/-- Lines 717-856.  The unguarded tail after `bail:` advances the frame counter and the
timecode whether or not the calls succeeded. -/
def scheduleNextFrame (prerolling : Bool) (r : FrameResults) (s : State) : State × List Event :=
  if prerolling = false ∧ s.running = false then
    (s, [])
  else
    ({ s with
        totalFramesScheduled := s.totalFramesScheduled + 1
        timeCode := s.timeCode.update },
      timecodeCalls r s
        [⟨.scheduleVideoFrame (currentFrame s) ((s.totalFramesScheduled : Int) * s.frameDuration)
            s.frameDuration s.frameTimescale, r.scheduleVideoFrame⟩])

/-! ## `writeNextAudioSamples` -/

/-- Lines 862-873: the one `ScheduleAudioSamples` call of `writeNextAudioSamples`. -/
def audioCall (s : State) : Call :=
  match s.outputSignal with
  | .pip =>
    .scheduleAudioSamples s.audioBuffer s.audioSamplesPerFrame
      ((s.totalAudioSecondsScheduled : Int) * s.audioBufferSampleLength) s.audioSampleRate
  | .drop =>
    .scheduleAudioSamples s.audioBuffer (s.audioBufferSampleLength - s.audioSamplesPerFrame)
      ((s.totalAudioSecondsScheduled : Int) * s.audioBufferSampleLength + s.audioSamplesPerFrame)
      s.audioSampleRate

/-- Lines 858-876; `ok` is the result of the `ScheduleAudioSamples` call. -/
def writeNextAudioSamples (ok : Bool) (s : State) : State × List Event :=
  (if ok then { s with totalAudioSecondsScheduled := s.totalAudioSecondsScheduled + 1 } else s,
    [⟨audioCall s, ok⟩])

/-! ## Sequences of preroll and feed calls -/

/-- One call of a scheduling operation within a session: `scheduleNextFrame(prerolling)` with
the results of its device calls, or `writeNextAudioSamples` with the result of its call. -/
inductive Op
  | frame (prerolling : Bool) (results : FrameResults)
  | audioSamples (ok : Bool)
  deriving DecidableEq, Repr

/-- The operation applied to the state. -/
def Op.run : Op → State → State × List Event
  | .frame prerolling results, s => scheduleNextFrame prerolling results s
  | .audioSamples ok, s => writeNextAudioSamples ok s

/-- The operations applied one after the other; the calls are concatenated in order. -/
def run : List Op → State → State × List Event
  | [], s => (s, [])
  | op :: ops, s =>
    let first := op.run s
    let rest := run ops first.1
    (rest.1, first.2 ++ rest.2)

/-! ## Frame creation -/

/-- Conversion of a 32-bit unsigned value to `int` (two's complement). -/
def toInt32 (n : Nat) : Int :=
  if n % 2 ^ 32 < 2 ^ 31 then ((n % 2 ^ 32 : Nat) : Int) else ((n % 2 ^ 32 : Nat) : Int) - 2 ^ 32

/-- Lines 915-942.  `frameWidth` is a `uint32_t`, so the arithmetic is modulo `2 ^ 32`; the
result is returned as an `int`. -/
def GetRowBytes (pixelFormat : PixelFormat) (frameWidth : Nat) : Int :=
  let w := frameWidth % 2 ^ 32
  toInt32 <|
    match pixelFormat with
    | .format8BitYUV => w * 2
    | .format10BitYUV => ((w + 47) % 2 ^ 32 / 48) * 128
    | .format10BitRGB => ((w + 63) % 2 ^ 32 / 64) * 256
    | _ => w * 4

/-- What the device returns to the calls of one `CreateOutputFrame`: whether a conversion
instance was obtained, the frames returned by the first and the second `CreateVideoFrame`
(`none` on failure) and the result of `ConvertFrame`. -/
structure CreateFrameResults where
  converter : Bool
  referenceFrame : Option FrameId
  scheduleFrame : Option FrameId
  convert : Bool
  deriving DecidableEq, Repr

/-- Lines 494-551.  `fill` names the fill function passed in (`FillBlack`, `FillColourBars`);
the result is the pointer `scheduleFrame`. -/
def CreateOutputFrame (pixelFormat : PixelFormat) (frameWidth frameHeight : Nat) (fill : Pattern)
    (r : CreateFrameResults) : Option FrameId × List Event :=
  let bytesPerRow := GetRowBytes pixelFormat frameWidth
  let referenceBytesPerRow := GetRowBytes .format8BitYUV frameWidth
  if r.converter = false then
    (none, [⟨.createConversionInstance, false⟩])
  else
    let createReference : Call :=
      .createVideoFrame frameWidth frameHeight referenceBytesPerRow .format8BitYUV
    match r.referenceFrame with
    | none =>
      (none, [⟨.createConversionInstance, true⟩, ⟨createReference, false⟩,
        ⟨.releaseConversionInstance, true⟩])
    | some referenceFrame =>
      let head : List Event :=
        [⟨.createConversionInstance, true⟩, ⟨createReference, true⟩,
          ⟨.fillFrame fill referenceFrame, true⟩]
      let bail : List Event :=
        [⟨.release referenceFrame, true⟩, ⟨.releaseConversionInstance, true⟩]
      if pixelFormat = .format8BitYUV then
        (some referenceFrame, head ++ [⟨.addRef referenceFrame, true⟩] ++ bail)
      else
        let createSchedule : Call :=
          .createVideoFrame frameWidth frameHeight bytesPerRow pixelFormat
        match r.scheduleFrame with
        | none => (none, head ++ [⟨createSchedule, false⟩] ++ bail)
        | some scheduleFrame =>
          (some scheduleFrame,
            head ++ [⟨createSchedule, true⟩, ⟨.convertFrame referenceFrame scheduleFrame, r.convert⟩]
              ++ bail)

/-! ## `stopRunning` and `startRunning` -/

/-- Lines 677-714.  The wait loop of lines 687-690 returns only once the stop callback has
set `scheduledPlaybackStopped`; it appears in the call list as `waitPlaybackStopped`. -/
def stopRunning (s : State) : State × List Event :=
  let stop : List Event :=
    if s.running then [⟨.stopScheduledPlayback, true⟩, ⟨.waitPlaybackStopped, true⟩] else []
  let releaseFrame (frame : Option FrameId) : List Event :=
    match frame with
    | some f => [⟨.release f, true⟩]
    | none => []
  ({ s with
      scheduledPlaybackStopped := if s.running then true else s.scheduledPlaybackStopped
      videoFrameBlack := none
      videoFrameBars := none
      audioBuffer := false
      running := false },
    stop ++ [⟨.setScreenPreviewCallback false, true⟩, ⟨.disableAudioOutput, true⟩,
        ⟨.disableVideoOutput, true⟩]
      ++ releaseFrame s.videoFrameBlack ++ releaseFrame s.videoFrameBars
      ++ (if s.audioBuffer then [⟨.free, true⟩] else []))

/-- The entries of the popups `startRunning` and `CreateOutputFrame` read. -/
structure Selection where
  outputSignal : OutputSignal
  audioChannelCount : Nat
  audioSampleDepth : Nat
  pixelFormat : PixelFormat
  deriving DecidableEq, Repr

/-- What the device returns to the calls of one `startRunning`.  `displayMode` is `none`
when `GetDisplayMode` fails, `hfrtcFlag` is `none` when `GetFlag` fails, and `preroll i`
holds the results of the `i`-th preroll frame. -/
structure StartResults where
  displayMode : Option DisplayMode
  attributes : Bool
  hfrtcFlag : Option Bool
  enableVideoOutput : Bool
  enableAudioOutput : Bool
  malloc : Bool
  black : CreateFrameResults
  bars : CreateFrameResults
  preroll : Nat → FrameResults
  beginAudioPreroll : Bool

/-- Lines 645-647: `count` iterations of `scheduleNextFrame(true)`; the loop counter is an
`unsigned int` running up to `framesPerSecond`. -/
def preroll (results : Nat → FrameResults) : Nat → State → State × List Event
  | 0, s => (s, [])
  | i + 1, s =>
    let before := preroll results i s
    let step := scheduleNextFrame true (results i) before.1
    (step.1, before.2 ++ step.2)

/-- Lines 553-675.  Every `goto bail` without success runs `stopRunning`. -/
def startRunning (ui : Selection) (r : StartResults) (s : State) : State × List Event :=
  let bail (attributes : Bool) (s : State) (calls : List Event) : State × List Event :=
    let stopped := stopRunning s
    (stopped.1,
      calls ++ (if attributes then [⟨.releaseAttributes, true⟩] else []) ++ stopped.2)
  let s := { s with
    outputSignal := ui.outputSignal
    audioChannelCount := ui.audioChannelCount
    audioSampleDepth := ui.audioSampleDepth
    audioSampleRate := bmdAudioSampleRate48kHz }
  let calls : List Event := [⟨.setScreenPreviewCallback true, true⟩]
  match r.displayMode with
  | none => bail false s (calls ++ [⟨.getDisplayMode s.selectedDisplayMode, false⟩])
  | some displayMode =>
    let s := { s with
      frameWidth := displayMode.width
      frameHeight := displayMode.height
      frameDuration := displayMode.frameDuration
      frameTimescale := displayMode.frameTimescale
      framesPerSecond := framesPerSecondOf displayMode.frameDuration displayMode.frameTimescale
      dropFrames := dropFramesOf displayMode.frameDuration displayMode.frameTimescale }
    let calls := calls ++ [⟨.getDisplayMode s.selectedDisplayMode, true⟩]
    if r.attributes = false then
      bail false s (calls ++ [⟨.queryAttributes, false⟩])
    else
      let legacy : Bool :=
        s.selectedDisplayMode = .ntsc ∨ s.selectedDisplayMode = .ntsc2398
          ∨ s.selectedDisplayMode = .pal
      let videoOutputFlags : VideoOutputFlags := if legacy then .outputVITC else .outputRP188
      let s := { s with
        hfrtcSupported := r.hfrtcFlag.getD false
        timeCodeFormat := if legacy then .vitc else .rp188Any
        timeCode := Timecode.new s.framesPerSecond.toNat s.dropFrames.toNat }
      let calls := calls ++ [⟨.queryAttributes, true⟩, ⟨.getFlagHFRTC, r.hfrtcFlag.isSome⟩,
        ⟨.enableVideoOutput s.selectedDisplayMode videoOutputFlags, r.enableVideoOutput⟩]
      if r.enableVideoOutput = false then
        bail true s calls
      else
        let calls := calls ++ [⟨.enableAudioOutput bmdAudioSampleRate48kHz s.audioSampleDepth
          s.audioChannelCount, r.enableAudioOutput⟩]
        if r.enableAudioOutput = false then
          bail true s calls
        else
          let s := { s with
            audioSamplesPerFrame :=
              audioSamplesPerFrameOf s.audioSampleRate s.frameDuration s.frameTimescale
            audioBufferSampleLength :=
              audioBufferSampleLengthOf s.framesPerSecond s.audioSampleRate s.frameDuration
                s.frameTimescale }
          let s := { s with audioBuffer := r.malloc }
          let calls := calls ++ [⟨.malloc (s.audioBufferSampleLength * s.audioChannelCount
            * (s.audioSampleDepth / 8 : Nat)), r.malloc⟩]
          if r.malloc = false then
            bail true s calls
          else
            let black := CreateOutputFrame ui.pixelFormat s.frameWidth s.frameHeight .black r.black
            let bars := CreateOutputFrame ui.pixelFormat s.frameWidth s.frameHeight .bars r.bars
            let s := { s with
              videoFrameBlack := black.1
              videoFrameBars := bars.1
              totalFramesScheduled := 0 }
            let prerolled := preroll r.preroll s.framesPerSecond.toNat s
            let s := { prerolled.1 with totalAudioSecondsScheduled := 0 }
            let calls := calls ++ black.2 ++ bars.2 ++ prerolled.2
              ++ [⟨.beginAudioPreroll, r.beginAudioPreroll⟩]
            if r.beginAudioPreroll = false then
              bail true s calls
            else
              ({ s with running := true, scheduledPlaybackStopped := false },
                calls ++ [⟨.releaseAttributes, true⟩])

/-! ## Reading the call list -/

/-- A timecode embed: the arguments of one `SetTimecodeFromComponents` call. -/
structure Embed where
  format : TimecodeFormat
  hours : Nat
  minutes : Nat
  seconds : Nat
  frames : Nat
  flags : TimecodeFlags
  deriving DecidableEq, Repr

/-- The timecode embeds issued on the given carriers, in program order. -/
def embedsOn (formats : List TimecodeFormat) (calls : List Event) : List Embed :=
  calls.filterMap fun e =>
    match e.call with
    | .setTimecodeFromComponents _ format hours minutes seconds frames flags =>
      if format ∈ formats then some ⟨format, hours, minutes, seconds, frames, flags⟩ else none
    | _ => none

/-- The arguments of one `ScheduleVideoFrame` call, without the frame. -/
structure VideoSchedule where
  displayTime : Int
  displayDuration : Int
  timeScale : Int
  deriving DecidableEq, Repr

/-- The `ScheduleVideoFrame` calls among the calls, in program order. -/
def videoSchedules (calls : List Event) : List VideoSchedule :=
  calls.filterMap fun e =>
    match e.call with
    | .scheduleVideoFrame _ displayTime displayDuration timeScale =>
      some ⟨displayTime, displayDuration, timeScale⟩
    | _ => none

/-- The sample count and start offset of one `ScheduleAudioSamples` call, and whether the
device accepted it. -/
structure AudioSchedule where
  sampleFrameCount : Int
  streamTime : Int
  accepted : Bool
  deriving DecidableEq, Repr

/-- The `ScheduleAudioSamples` calls among the calls, in program order. -/
def audioSchedules (calls : List Event) : List AudioSchedule :=
  calls.filterMap fun e =>
    match e.call with
    | .scheduleAudioSamples _ sampleFrameCount streamTime _ =>
      some ⟨sampleFrameCount, streamTime, e.ok⟩
    | _ => none

/-- Every call of one frame succeeds. -/
def FrameResults.Succeeds (r : FrameResults) : Prop :=
  r.setVITC = true ∧ r.setHFRTC = true ∧ r.displayMode.isSome = true ∧ r.setVITC1 = true
    ∧ r.setVITC2 = true ∧ r.scheduleVideoFrame = true

/-- Every call of one `CreateOutputFrame` succeeds. -/
def CreateFrameResults.Succeeds (r : CreateFrameResults) : Prop :=
  r.converter = true ∧ r.referenceFrame.isSome = true ∧ r.scheduleFrame.isSome = true
    ∧ r.convert = true

/-- Every call of one `startRunning` succeeds. -/
def StartResults.Succeeds (r : StartResults) : Prop :=
  r.displayMode.isSome = true ∧ r.attributes = true ∧ r.hfrtcFlag.isSome = true
    ∧ r.enableVideoOutput = true ∧ r.enableAudioOutput = true ∧ r.malloc = true
    ∧ r.black.Succeeds ∧ r.bars.Succeeds ∧ (∀ i, (r.preroll i).Succeeds)
    ∧ r.beginAudioPreroll = true

/-- Lines 865 and 871: the start offset `writeNextAudioSamples` passes in state `s`. -/
def audioStreamTime (s : State) : Int :=
  match s.outputSignal with
  | .pip => (s.totalAudioSecondsScheduled : Int) * s.audioBufferSampleLength
  | .drop =>
    (s.totalAudioSecondsScheduled : Int) * s.audioBufferSampleLength + s.audioSamplesPerFrame

/-- Lines 865 and 871: the sample count `writeNextAudioSamples` passes in state `s`. -/
def audioSampleCount (s : State) : Int :=
  match s.outputSignal with
  | .pip => s.audioSamplesPerFrame
  | .drop => s.audioBufferSampleLength - s.audioSamplesPerFrame

/-- The calls of the timecode part of `scheduleNextFrame` (lines 750-843): timecode embeds
and the display mode query. -/
def Call.isTimecodeStep : Call → Bool
  | .setTimecodeFromComponents .. => true
  | .getDisplayMode _ => true
  | _ => false

/-- `calls` is a run of timecode steps, followed by `rest` unless one of the steps failed. -/
def TimecodeSteps (rest calls : List Event) : Prop :=
  ∃ steps : List Event, (∀ e ∈ steps, e.call.isTimecodeStep = true)
    ∧ (calls = steps ++ rest ∨ calls = steps)

/-- The frame a call is made on or passes to the device: the receiver of
`SetTimecodeFromComponents` and the first argument of `ScheduleVideoFrame`. -/
def Call.frameOperand : Call → Option (Option FrameId)
  | .setTimecodeFromComponents frame .. => some frame
  | .scheduleVideoFrame frame .. => some frame
  | _ => none

/-- The frame operands of the calls, in program order. -/
def frameOperands (calls : List Event) : List (Option FrameId) :=
  calls.filterMap fun e => e.call.frameOperand

/-- The frames passed to `ScheduleVideoFrame`, in program order. -/
def scheduledFrames (calls : List Event) : List (Option FrameId) :=
  calls.filterMap fun e =>
    match e.call with
    | .scheduleVideoFrame frame .. => some frame
    | _ => none

/-! ## Concrete inputs -/

/-- Every call of one `CreateOutputFrame` succeeds, returning the two given frames. -/
def CreateFrameResults.allOk (referenceFrame scheduleFrame : FrameId) : CreateFrameResults :=
  { converter := true, referenceFrame := some referenceFrame,
    scheduleFrame := some scheduleFrame, convert := true }

/-- Every call of one `startRunning` succeeds: the device returns the given display mode with
the given field dominance and reports the given high-frame-rate timecode support. -/
def StartResults.allOk (mode : DisplayMode) (dominance : FieldDominance) (hfrtc : Bool) :
    StartResults :=
  { displayMode := some mode
    attributes := true
    hfrtcFlag := some hfrtc
    enableVideoOutput := true
    enableAudioOutput := true
    malloc := true
    black := CreateFrameResults.allOk 1 2
    bars := CreateFrameResults.allOk 3 4
    preroll := fun _ => FrameResults.allOk dominance
    beginAudioPreroll := true }

/-- NTSC: 720 x 486 at 30000/1001 frames per second. -/
def modeNTSC : DisplayMode :=
  { width := 720, height := 486, frameDuration := 1001, frameTimescale := 30000 }

/-- PAL: 720 x 576 at 25 frames per second. -/
def modePAL : DisplayMode :=
  { width := 720, height := 576, frameDuration := 1, frameTimescale := 25 }

/-- 1080p59.94: 1920 x 1080 at 60000/1001 frames per second. -/
def modeHD1080p5994 : DisplayMode :=
  { width := 1920, height := 1080, frameDuration := 1001, frameTimescale := 60000 }

/-- A session in progress in a mode that is not one of the three legacy modes: RP188
timecode, two distinct pattern frames, one second of audio at 48 kHz. -/
def State.playing (outputSignal : OutputSignal) (mode : DisplayMode) (hfrtc : Bool)
    (timeCode : Timecode) (totalFramesScheduled totalAudioSecondsScheduled : Nat) : State :=
  { State.initial (.other 0) with
    running := true
    outputSignal := outputSignal
    audioChannelCount := 2
    audioSampleDepth := 16
    audioSampleRate := bmdAudioSampleRate48kHz
    frameWidth := mode.width
    frameHeight := mode.height
    frameDuration := mode.frameDuration
    frameTimescale := mode.frameTimescale
    framesPerSecond := framesPerSecondOf mode.frameDuration mode.frameTimescale
    dropFrames := dropFramesOf mode.frameDuration mode.frameTimescale
    hfrtcSupported := hfrtc
    timeCodeFormat := .rp188Any
    timeCode := timeCode
    videoFrameBlack := some 1
    videoFrameBars := some 3
    audioBuffer := true
    audioSamplesPerFrame :=
      audioSamplesPerFrameOf bmdAudioSampleRate48kHz mode.frameDuration mode.frameTimescale
    audioBufferSampleLength :=
      audioBufferSampleLengthOf (framesPerSecondOf mode.frameDuration mode.frameTimescale)
        bmdAudioSampleRate48kHz mode.frameDuration mode.frameTimescale
    totalFramesScheduled := totalFramesScheduled
    totalAudioSecondsScheduled := totalAudioSecondsScheduled }

/-- The timecode 00:00:01 and the given frame number, at the given rate. -/
def Timecode.atFrame (fps dropFrames frames : Nat) : Timecode :=
  { fps := fps, dropFrames := dropFrames, hours := 0, minutes := 0, seconds := 1,
    frames := frames }

/-- A progressive mode above 60 frames per second: 1920 x 1080 at 120 frames per second. -/
def modeHD1080p120 : DisplayMode :=
  { width := 1920, height := 1080, frameDuration := 1, frameTimescale := 120 }

/-- A selection of the popups: the given pattern, two 16-bit channels, 8-bit YUV. -/
def Selection.stereo (outputSignal : OutputSignal) : Selection :=
  { outputSignal := outputSignal, audioChannelCount := 2, audioSampleDepth := 16,
    pixelFormat := .format8BitYUV }

/-! ## Observations for the error paths -/

/-- `calls` is a run of successful timecode steps followed by `rest`, or a run of successful
timecode steps closed by a failed one after which nothing is issued. -/
def TimecodeRun (rest calls : List Event) : Prop :=
  (∃ steps : List Event, calls = steps ++ rest
      ∧ ∀ e ∈ steps, e.call.isTimecodeStep = true ∧ e.ok = true)
    ∨ (∃ (steps : List Event) (failed : Event), calls = steps ++ [failed]
      ∧ failed.call.isTimecodeStep = true ∧ failed.ok = false
      ∧ ∀ e ∈ steps, e.call.isTimecodeStep = true ∧ e.ok = true)

/-- Lines 603-605: the three modes that get the single VITC track. -/
def DisplayModeId.isLegacy (mode : DisplayModeId) : Bool :=
  mode = .ntsc ∨ mode = .ntsc2398 ∨ mode = .pal

/-- The calls of `stopRunning` that give up what the session holds: disabling an output,
releasing a frame, freeing the audio buffer. -/
def Call.isTeardown : Call → Bool
  | .disableAudioOutput => true
  | .disableVideoOutput => true
  | .release _ => true
  | .free => true
  | _ => false

/-- The `CreateVideoFrame` calls among the calls, in program order. -/
def createdFrames (calls : List Event) : List Event :=
  calls.filter fun e =>
    match e.call with
    | .createVideoFrame .. => true
    | _ => false

/-- The `ConvertFrame` calls among the calls, in program order. -/
def conversions (calls : List Event) : List Event :=
  calls.filter fun e =>
    match e.call with
    | .convertFrame .. => true
    | _ => false

/-- The stride formulas as the specification words them (section 4.3): `width × 2` for the
two-bytes-per-pixel format, the width rounded up to 48-pixel blocks of 128 bytes or to
64-pixel blocks of 256 bytes for the 10-bit formats, `width × 4` otherwise. -/
def strideFormula (pixelFormat : PixelFormat) (width : Nat) : Int :=
  match pixelFormat with
  | .format8BitYUV => (width : Int) * 2
  | .format10BitYUV => ⌈(width : ℚ) / 48⌉ * 128
  | .format10BitRGB => ⌈(width : ℚ) / 64⌉ * 256
  | _ => (width : Int) * 4

/-! ## `FillColourBars` -/

/-- Lines 43-47: SD 75% colour bars. -/
def gSD75pcColourBars : List Nat :=
  [0xeb80eb80, 0xa28ea22c, 0x832c839c, 0x703a7048, 0x54c654b8, 0x41d44164, 0x237223d4, 0x10801080]

/-- Lines 50-54: HD 75% colour bars. -/
def gHD75pcColourBars : List Nat :=
  [0xeb80eb80, 0xa888a82c, 0x912c9193, 0x8534853f, 0x3fcc3fc1, 0x33d4336d, 0x1c781cd4, 0x10801080]

/-- Lines 987-994: the table `bars` points to. -/
def colourBars (width : Nat) : List Nat :=
  if width > 720 then gHD75pcColourBars else gSD75pcColourBars

/-- Line 1000: the index `(x * 8) / width`, computed on `uint32_t` values. -/
def barIndex (width x : Nat) : Nat :=
  (x * 8) % 2 ^ 32 / width

/-- Line 1000: the word `bars[(x * 8) / width]`, or `none` when the index is outside the
table. -/
def colourBarWord (width x : Nat) : Option Nat :=
  (colourBars width)[barIndex width x]?

/-- Lines 996-1002: the words written to the frame, row after row, one word for every second
column `x = 0, 2, 4, ...` below `width`; `none` when a lookup leaves the table.  (For
`width = 2 ^ 32 - 1` the step `x += 2` wraps and the source loops; that width is outside
this model.) -/
def FillColourBars (width height : Nat) : Option (List Nat) :=
  ((List.range height).mapM fun _ =>
      (List.range ((width + 1) / 2)).mapM fun i => colourBarWord width (2 * i)).map List.flatten

/-! ## `HDRVideoFrame` metadata queries (`Samples/SignalGenHDR/HDRVideoFrame.cpp`) -/

/-- The result codes the metadata queries return. -/
inductive HRESULT
  | S_OK
  | E_INVALIDARG
  deriving DecidableEq, Repr

/-- The metadata identifiers the queries tell apart; every other identifier is `other`. -/
inductive MetadataID
  | hdrElectroOpticalTransferFunc
  | colorspace
  | hdrDisplayPrimariesRedX
  | hdrDisplayPrimariesRedY
  | hdrDisplayPrimariesGreenX
  | hdrDisplayPrimariesGreenY
  | hdrDisplayPrimariesBlueX
  | hdrDisplayPrimariesBlueY
  | hdrWhitePointX
  | hdrWhitePointY
  | hdrMaxDisplayMasteringLuminance
  | hdrMinDisplayMasteringLuminance
  | hdrMaximumContentLightLevel
  | hdrMaximumFrameAverageLightLevel
  | other (code : Nat)
  deriving DecidableEq, Repr

/-- The member `referencePrimaries` of the metadata; `α` stands for `double`, whose values
are only copied. -/
structure ChromaticityCoordinates (α : Type) where
  RedX : α
  RedY : α
  GreenX : α
  GreenY : α
  BlueX : α
  BlueY : α
  WhiteX : α
  WhiteY : α

/-- The member `m_metadata` of `HDRVideoFrame`. -/
structure HDRMetadata (α : Type) where
  EOTF : Int
  referencePrimaries : ChromaticityCoordinates α
  maxDisplayMasteringLuminance : α
  minDisplayMasteringLuminance : α
  maxCLL : α
  maxFALL : α

/-- Lines 96-117.  `value` is what the caller's variable holds before the call; the result is
the code returned and what the variable holds afterwards.  `colorspaceRec2020` is the
constant `bmdColorspaceRec2020` of the device interface header. -/
def HDRVideoFrame.GetInt {α : Type} (colorspaceRec2020 : Int) (m_metadata : HDRMetadata α)
    (metadataID : MetadataID) (value : Int) : HRESULT × Int :=
  match metadataID with
  | .hdrElectroOpticalTransferFunc => (.S_OK, m_metadata.EOTF)
  | .colorspace => (.S_OK, colorspaceRec2020)
  | _ => (.E_INVALIDARG, value)

/-- Lines 119-179, with the same convention as `GetInt`. -/
def HDRVideoFrame.GetFloat {α : Type} (m_metadata : HDRMetadata α) (metadataID : MetadataID)
    (value : α) : HRESULT × α :=
  match metadataID with
  | .hdrDisplayPrimariesRedX => (.S_OK, m_metadata.referencePrimaries.RedX)
  | .hdrDisplayPrimariesRedY => (.S_OK, m_metadata.referencePrimaries.RedY)
  | .hdrDisplayPrimariesGreenX => (.S_OK, m_metadata.referencePrimaries.GreenX)
  | .hdrDisplayPrimariesGreenY => (.S_OK, m_metadata.referencePrimaries.GreenY)
  | .hdrDisplayPrimariesBlueX => (.S_OK, m_metadata.referencePrimaries.BlueX)
  | .hdrDisplayPrimariesBlueY => (.S_OK, m_metadata.referencePrimaries.BlueY)
  | .hdrWhitePointX => (.S_OK, m_metadata.referencePrimaries.WhiteX)
  | .hdrWhitePointY => (.S_OK, m_metadata.referencePrimaries.WhiteY)
  | .hdrMaxDisplayMasteringLuminance => (.S_OK, m_metadata.maxDisplayMasteringLuminance)
  | .hdrMinDisplayMasteringLuminance => (.S_OK, m_metadata.minDisplayMasteringLuminance)
  | .hdrMaximumContentLightLevel => (.S_OK, m_metadata.maxCLL)
  | .hdrMaximumFrameAverageLightLevel => (.S_OK, m_metadata.maxFALL)
  | _ => (.E_INVALIDARG, value)

/-- Lines 181-186: only the local pointer is cleared. -/
def HDRVideoFrame.GetFlag (_metadataID : MetadataID) (value : Bool) : HRESULT × Bool :=
  (.E_INVALIDARG, value)

/-- Lines 188-193: only the local pointer is cleared. -/
def HDRVideoFrame.GetString (_metadataID : MetadataID) (value : String) : HRESULT × String :=
  (.E_INVALIDARG, value)

/-- The twelve identifiers `GetFloat` answers. -/
def MetadataID.isFloatValued : MetadataID → Bool
  | .hdrDisplayPrimariesRedX => true
  | .hdrDisplayPrimariesRedY => true
  | .hdrDisplayPrimariesGreenX => true
  | .hdrDisplayPrimariesGreenY => true
  | .hdrDisplayPrimariesBlueX => true
  | .hdrDisplayPrimariesBlueY => true
  | .hdrWhitePointX => true
  | .hdrWhitePointY => true
  | .hdrMaxDisplayMasteringLuminance => true
  | .hdrMinDisplayMasteringLuminance => true
  | .hdrMaximumContentLightLevel => true
  | .hdrMaximumFrameAverageLightLevel => true
  | _ => false

/-- A metadata record with distinct values in all fields. -/
def HDRMetadata.sample : HDRMetadata Nat :=
  { EOTF := 2
    referencePrimaries :=
      { RedX := 1, RedY := 2, GreenX := 3, GreenY := 4, BlueX := 5, BlueY := 6, WhiteX := 7,
        WhiteY := 8 }
    maxDisplayMasteringLuminance := 9
    minDisplayMasteringLuminance := 10
    maxCLL := 11
    maxFALL := 12 }

/-! ## Lemmas on the state passed through the operations -/

theorem scheduleNextFrame_prerolling (r : FrameResults) (s : State) :
    (scheduleNextFrame true r s).1 =
      { s with
        totalFramesScheduled := s.totalFramesScheduled + 1
        timeCode := s.timeCode.update } := by
  simp [scheduleNextFrame]

theorem preroll_state (results : Nat → FrameResults) (n : Nat) (s : State) :
    (preroll results n s).1 =
      { s with
        totalFramesScheduled := s.totalFramesScheduled + n
        timeCode := Timecode.update^[n] s.timeCode } := by
  induction n with
  | zero => rfl
  | succ n ih =>
    simp only [preroll, scheduleNextFrame_prerolling, ih, Function.iterate_succ_apply']
    rfl

theorem startRunning_cadence (ui : Selection) (r : StartResults) (s : State) (mode : DisplayMode)
    (h : r.displayMode = some mode) :
    (startRunning ui r s).1.framesPerSecond
        = framesPerSecondOf mode.frameDuration mode.frameTimescale
      ∧ (startRunning ui r s).1.dropFrames = dropFramesOf mode.frameDuration mode.frameTimescale
      ∧ (startRunning ui r s).1.frameDuration = mode.frameDuration
      ∧ (startRunning ui r s).1.frameTimescale = mode.frameTimescale := by
  unfold startRunning
  simp only [h]
  split_ifs <;> simp [stopRunning, preroll_state]

/-! ## Cadence -/

theorem framesPerSecondOf_le_iff (d t n : Int) (hd : 0 < d) (ht : 0 ≤ t) :
    framesPerSecondOf d t ≤ n ↔ t ≤ n * d := by
  unfold framesPerSecondOf
  rw [Int.tdiv_eq_ediv (by omega) hd.le, ← Int.lt_add_one_iff, Int.ediv_lt_iff_lt_mul hd]
  have h : (n + 1) * d = n * d + d := by ring
  rw [h]
  generalize n * d = m
  omega

theorem framesPerSecondOf_eq_ceil (d t : Int) (hd : 0 < d) (ht : 0 ≤ t) :
    framesPerSecondOf d t = ⌈(t : ℚ) / (d : ℚ)⌉ := by
  apply eq_of_forall_ge_iff
  intro n
  have hq : (0 : ℚ) < (d : ℚ) := by exact_mod_cast hd
  rw [framesPerSecondOf_le_iff d t n hd ht, Int.ceil_le, div_le_iff₀ hq]
  exact_mod_cast Iff.rfl

theorem framesPerSecondOf_ntsc : framesPerSecondOf 1001 30000 = 30 := by decide

theorem framesPerSecondOf_pal : framesPerSecondOf 1 25 = 25 := by decide

/-- C1: for a display mode with `frameDuration > 0` and `frameTimescale ≥ 0`, the
`framesPerSecond` that `startRunning` computes is `⌈frameTimescale / frameDuration⌉`, that is,
the least integer `n` with `n * frameDuration ≥ frameTimescale`. -/
theorem startRunning_framesPerSecond_ceil (ui : Selection) (r : StartResults) (s : State)
    (mode : DisplayMode) (h : r.displayMode = some mode) (hd : 0 < mode.frameDuration)
    (ht : 0 ≤ mode.frameTimescale) :
    (startRunning ui r s).1.framesPerSecond
        = ⌈(mode.frameTimescale : ℚ) / (mode.frameDuration : ℚ)⌉
      ∧ ∀ n : Int, (startRunning ui r s).1.framesPerSecond ≤ n
          ↔ mode.frameTimescale ≤ n * mode.frameDuration := by
  rw [(startRunning_cadence ui r s mode h).1]
  exact ⟨framesPerSecondOf_eq_ceil _ _ hd ht, fun n => framesPerSecondOf_le_iff _ _ n hd ht⟩

theorem startRunning_framesPerSecond_ceil_witness :
    (startRunning (Selection.stereo .pip) (StartResults.allOk modeNTSC .lowerFieldFirst false)
        (State.initial .ntsc)).1.framesPerSecond
        = ⌈(modeNTSC.frameTimescale : ℚ) / (modeNTSC.frameDuration : ℚ)⌉
      ∧ ∀ n : Int, (startRunning (Selection.stereo .pip)
            (StartResults.allOk modeNTSC .lowerFieldFirst false)
            (State.initial .ntsc)).1.framesPerSecond ≤ n
          ↔ modeNTSC.frameTimescale ≤ n * modeNTSC.frameDuration :=
  startRunning_framesPerSecond_ceil _ _ _ modeNTSC rfl (by decide) (by decide)

theorem dropFramesOf_eq (d t : Int) :
    dropFramesOf d t = if d = 1001 ∧ (30000 : Int) ∣ t then 2 * (t / 30000) else 0 := by
  unfold dropFramesOf
  by_cases hdvd : (30000 : Int) ∣ t
  · simp [hdvd, Int.tmod_eq_zero_of_dvd hdvd, Int.tdiv_eq_ediv_of_dvd hdvd]
  · have hmod : ¬ t.tmod 30000 = 0 := fun h => hdvd (Int.dvd_of_tmod_eq_zero h)
    simp [hdvd, hmod]

theorem dropFramesOf_ntsc : dropFramesOf 1001 30000 = 2 := by decide

theorem dropFramesOf_5994 : dropFramesOf 1001 60000 = 4 := by decide

theorem dropFramesOf_pal : dropFramesOf 1 25 = 0 := by decide

/-- C2: the `dropFrames` that `startRunning` computes is `2 * (frameTimescale / 30000)` when
`frameDuration = 1001` and `frameTimescale` is a multiple of 30000, and 0 in every other
case. -/
theorem startRunning_dropFrames (ui : Selection) (r : StartResults) (s : State)
    (mode : DisplayMode) (h : r.displayMode = some mode) :
    (startRunning ui r s).1.dropFrames =
      if mode.frameDuration = 1001 ∧ (30000 : Int) ∣ mode.frameTimescale then
        2 * (mode.frameTimescale / 30000)
      else 0 := by
  rw [(startRunning_cadence ui r s mode h).2.1]
  exact dropFramesOf_eq _ _

theorem startRunning_dropFrames_witness :
    (startRunning (Selection.stereo .drop) (StartResults.allOk modeHD1080p5994 .progressiveFrame
        true) (State.initial (.other 0))).1.dropFrames =
      if modeHD1080p5994.frameDuration = 1001 ∧ (30000 : Int) ∣ modeHD1080p5994.frameTimescale
      then 2 * (modeHD1080p5994.frameTimescale / 30000)
      else 0 :=
  startRunning_dropFrames _ _ _ modeHD1080p5994 rfl

/-! ## Timecode track selection -/

theorem scheduleNextFrame_calls (prerolling : Bool) (r : FrameResults) (s : State)
    (hactive : prerolling = true ∨ s.running = true) :
    (scheduleNextFrame prerolling r s).2 =
      timecodeCalls r s
        [⟨.scheduleVideoFrame (currentFrame s) ((s.totalFramesScheduled : Int) * s.frameDuration)
            s.frameDuration s.frameTimescale, r.scheduleVideoFrame⟩] := by
  have hguard : ¬ (prerolling = false ∧ s.running = false) := by
    rcases hactive with h | h <;> simp [h]
  simp only [scheduleNextFrame, if_neg hguard]

/-- C3: in a non-legacy (RP188) mode whose field dominance is progressive, a frame with
timecode frame number `f` is embedded on VITC1 only, with frame number `f`, when
`framesPerSecond ≤ 30`; when `30 < framesPerSecond ≤ 60` it is embedded on exactly one
track, VITC1 for even `f` and VITC2 for odd `f`, with frame number `f / 2` rounded down. -/
theorem scheduleNextFrame_progressive_tracks (prerolling : Bool) (r : FrameResults) (s : State)
    (hactive : prerolling = true ∨ s.running = true)
    (hformat : s.timeCodeFormat ≠ .vitc)
    (hmode : r.displayMode = some .progressiveFrame)
    (hhfr : s.hfrtcSupported = true → r.setHFRTC = true)
    (h60 : s.framesPerSecond ≤ 60) :
    embedsOn [.rp188VITC1, .rp188VITC2] (scheduleNextFrame prerolling r s).2 =
      if s.framesPerSecond ≤ 30 then
        [⟨.rp188VITC1, s.timeCode.hours, s.timeCode.minutes, s.timeCode.seconds,
          s.timeCode.frames, .flagDefault⟩]
      else if s.timeCode.frames % 2 = 0 then
        [⟨.rp188VITC1, s.timeCode.hours, s.timeCode.minutes, s.timeCode.seconds,
          s.timeCode.frames / 2, .flagDefault⟩]
      else
        [⟨.rp188VITC2, s.timeCode.hours, s.timeCode.minutes, s.timeCode.seconds,
          s.timeCode.frames / 2, .fieldMark⟩] := by
  rw [scheduleNextFrame_calls prerolling r s hactive]
  have hshift : s.timeCode.frames >>> 1 = s.timeCode.frames / 2 := by
    simp [Nat.shiftRight_eq_div_pow]
  have hhfr' : s.hfrtcSupported = false ∨ r.setHFRTC = true := by
    cases h : s.hfrtcSupported
    · exact Or.inl rfl
    · exact Or.inr (hhfr h)
  by_cases h30 : s.framesPerSecond ≤ 30
  · simp only [timecodeCalls, if_neg hformat, hmode, selectTracks, ne_eq, not_true_eq_false,
      if_false, if_pos h30]
    rcases hhfr' with h | h <;> cases h1 : r.setVITC1 <;> cases hs : s.hfrtcSupported <;>
      simp_all [Event.seq, embedsOn]
  · by_cases hbit : s.timeCode.frames % 2 = 0
    · have hand : s.timeCode.frames &&& 1 = 0 := by rw [Nat.and_one_is_mod]; exact hbit
      simp only [timecodeCalls, if_neg hformat, hmode, selectTracks, ne_eq, not_true_eq_false,
        if_false, if_neg h30, if_pos h60, if_pos hand, if_pos hbit, hshift]
      rcases hhfr' with h | h <;> cases h1 : r.setVITC1 <;> cases hs : s.hfrtcSupported <;>
        simp_all [Event.seq, embedsOn]
    · have hand : ¬ s.timeCode.frames &&& 1 = 0 := by rw [Nat.and_one_is_mod]; exact hbit
      simp only [timecodeCalls, if_neg hformat, hmode, selectTracks, ne_eq, not_true_eq_false,
        if_false, if_neg h30, if_pos h60, if_neg hand, if_neg hbit, hshift]
      rcases hhfr' with h | h <;> cases h2 : r.setVITC2 <;> cases hs : s.hfrtcSupported <;>
        simp_all [Event.seq, embedsOn]

theorem scheduleNextFrame_progressive_tracks_witness :
    embedsOn [.rp188VITC1, .rp188VITC2]
        (scheduleNextFrame false (FrameResults.allOk .progressiveFrame)
          (State.playing .pip modeHD1080p5994 true (Timecode.atFrame 60 4 7) 67 1)).2
      = [⟨.rp188VITC2, 0, 0, 1, 3, .fieldMark⟩] :=
  (scheduleNextFrame_progressive_tracks false (FrameResults.allOk .progressiveFrame)
    (State.playing .pip modeHD1080p5994 true (Timecode.atFrame 60 4 7) 67 1)
    (Or.inr rfl) (by decide) rfl (fun _ => rfl) (by decide)).trans (by decide)

theorem scheduleNextFrame_pal_progressive_frame :
    embedsOn [.rp188VITC1, .rp188VITC2]
        (scheduleNextFrame true (FrameResults.allOk .progressiveFrame)
          (State.playing .pip modePAL false (Timecode.atFrame 25 0 7) 32 1)).2
      = [⟨.rp188VITC1, 0, 0, 1, 7, .flagDefault⟩] := by
  decide

/-- C4: in a non-legacy (RP188) mode whose field dominance is not progressive, the frame is
embedded on both VITC1 and VITC2 with the same hours, minutes, seconds and frame number; the
VITC1 embed carries the default flag and the VITC2 embed the field-mark flag. -/
theorem scheduleNextFrame_interlaced_tracks (prerolling : Bool) (r : FrameResults) (s : State)
    (dominance : FieldDominance)
    (hactive : prerolling = true ∨ s.running = true)
    (hformat : s.timeCodeFormat ≠ .vitc)
    (hmode : r.displayMode = some dominance)
    (hdominance : dominance ≠ .progressiveFrame)
    (hhfr : s.hfrtcSupported = true → r.setHFRTC = true)
    (hvitc1 : r.setVITC1 = true) :
    embedsOn [.rp188VITC1, .rp188VITC2] (scheduleNextFrame prerolling r s).2
      = [⟨.rp188VITC1, s.timeCode.hours, s.timeCode.minutes, s.timeCode.seconds,
            s.timeCode.frames, .flagDefault⟩,
          ⟨.rp188VITC2, s.timeCode.hours, s.timeCode.minutes, s.timeCode.seconds,
            s.timeCode.frames, .fieldMark⟩] := by
  rw [scheduleNextFrame_calls prerolling r s hactive]
  have hhfr' : s.hfrtcSupported = false ∨ r.setHFRTC = true := by
    cases h : s.hfrtcSupported
    · exact Or.inl rfl
    · exact Or.inr (hhfr h)
  simp only [timecodeCalls, if_neg hformat, hmode, selectTracks, if_pos hdominance]
  rcases hhfr' with h | h <;> cases h2 : r.setVITC2 <;> cases hs : s.hfrtcSupported <;>
    simp_all [Event.seq, embedsOn]

theorem scheduleNextFrame_interlaced_tracks_witness :
    embedsOn [.rp188VITC1, .rp188VITC2]
        (scheduleNextFrame false (FrameResults.allOk .upperFieldFirst)
          (State.playing .drop modeHD1080p5994 false (Timecode.atFrame 60 4 7) 67 1)).2
      = [⟨.rp188VITC1, 0, 0, 1, 7, .flagDefault⟩, ⟨.rp188VITC2, 0, 0, 1, 7, .fieldMark⟩] :=
  scheduleNextFrame_interlaced_tracks false (FrameResults.allOk .upperFieldFirst)
    (State.playing .drop modeHD1080p5994 false (Timecode.atFrame 60 4 7) 67 1)
    .upperFieldFirst (Or.inr rfl) (by decide) rfl (by decide) (fun _ => rfl) rfl

/-- C5: in a non-legacy (RP188) mode on a device that reports high-frame-rate timecode
support, the frame is embedded exactly once on the high-frame-rate carrier, with the
original frame number, whatever the field dominance, the frame rate and the results of the
other calls. -/
theorem scheduleNextFrame_hfrtc_once (prerolling : Bool) (r : FrameResults) (s : State)
    (hactive : prerolling = true ∨ s.running = true)
    (hformat : s.timeCodeFormat ≠ .vitc)
    (hsupported : s.hfrtcSupported = true) :
    embedsOn [.rp188HighFrameRate] (scheduleNextFrame prerolling r s).2
      = [⟨.rp188HighFrameRate, s.timeCode.hours, s.timeCode.minutes, s.timeCode.seconds,
            s.timeCode.frames, .flagDefault⟩] := by
  rw [scheduleNextFrame_calls prerolling r s hactive]
  simp only [timecodeCalls, if_neg hformat, hsupported, if_true]
  cases hh : r.setHFRTC
  · simp [Event.seq, embedsOn]
  · cases hm : r.displayMode with
    | none => simp [Event.seq, embedsOn]
    | some dominance =>
      cases h1 : r.setVITC1 <;> cases h2 : r.setVITC2 <;>
        cases hs1 : (selectTracks dominance s.framesPerSecond s.timeCode.frames).setVITC1Timecode <;>
        cases hs2 : (selectTracks dominance s.framesPerSecond s.timeCode.frames).setVITC2Timecode <;>
        simp [Event.seq, embedsOn, hs1, hs2]

theorem scheduleNextFrame_hfrtc_once_witness :
    embedsOn [.rp188HighFrameRate]
        (scheduleNextFrame false (FrameResults.allOk .progressiveFrame)
          (State.playing .pip modeHD1080p5994 true (Timecode.atFrame 60 4 7) 67 1)).2
      = [⟨.rp188HighFrameRate, 0, 0, 1, 7, .flagDefault⟩] :=
  scheduleNextFrame_hfrtc_once false (FrameResults.allOk .progressiveFrame)
    (State.playing .pip modeHD1080p5994 true (Timecode.atFrame 60 4 7) 67 1)
    (Or.inr rfl) (by decide) rfl

/-! ## Pattern alternation -/

theorem natCast_tmod_eq_zero_iff (n : Nat) (fps : Int) (hfps : 0 < fps) :
    (n : Int).tmod fps = 0 ↔ (n : Int) % fps = 0 := by
  rw [Int.tmod_eq_emod (Int.natCast_nonneg n) hfps.le]

theorem exists_unique_multiple_in_window (F : Nat) (hF : 0 < F) (k : Nat) :
    ∃! m : Nat, k ≤ m ∧ m < k + F ∧ m % F = 0 := by
  refine ⟨F * ((k + F - 1) / F), ⟨?_, ?_, Nat.mul_mod_right _ _⟩, ?_⟩
  · have h1 := Nat.div_add_mod (k + F - 1) F
    have h2 := Nat.mod_lt (k + F - 1) hF
    generalize F * ((k + F - 1) / F) = x at *
    omega
  · have h1 := Nat.div_add_mod (k + F - 1) F
    generalize F * ((k + F - 1) / F) = x at *
    omega
  · rintro m ⟨hkm, hmk, hm⟩
    obtain ⟨a, rfl⟩ := Nat.dvd_of_mod_eq_zero hm
    have h1 := Nat.div_add_mod (k + F - 1) F
    have h2 := Nat.mod_lt (k + F - 1) hF
    congr 1
    rcases lt_trichotomy a ((k + F - 1) / F) with h | h | h
    · have h3 : F * (a + 1) ≤ F * ((k + F - 1) / F) := Nat.mul_le_mul_left F h
      rw [Nat.mul_add, Nat.mul_one] at h3
      generalize F * ((k + F - 1) / F) = x at *
      generalize F * a = y at *
      omega
    · exact h
    · have h3 : F * ((k + F - 1) / F + 1) ≤ F * a := Nat.mul_le_mul_left F h
      rw [Nat.mul_add, Nat.mul_one] at h3
      generalize F * ((k + F - 1) / F) = x at *
      generalize F * a = y at *
      omega

theorem exists_unique_index_in_second (fps : Int) (hfps : 0 < fps) (k : Nat) :
    ∃! m : Nat, k ≤ m ∧ (m : Int) < k + fps ∧ (m : Int) % fps = 0 := by
  obtain ⟨F, rfl⟩ : ∃ F : Nat, fps = F := ⟨fps.toNat, (Int.toNat_of_nonneg hfps.le).symm⟩
  have hF : 0 < F := by exact_mod_cast hfps
  obtain ⟨m, ⟨h1, h2, h3⟩, huniq⟩ := exists_unique_multiple_in_window F hF k
  refine ⟨m, ⟨h1, by exact_mod_cast h2, by exact_mod_cast h3⟩, ?_⟩
  rintro m' ⟨h1', h2', h3'⟩
  exact huniq m' ⟨h1', by exact_mod_cast h2', by exact_mod_cast h3'⟩

/-- The alternation rule on indices: which pattern `selectPattern` names at index `n`, and
that every `framesPerSecond` consecutive indices hold exactly one once-per-second index. -/
theorem selectPattern_once_per_second (fps : Int) (hfps : 0 < fps) (n : Nat) :
    (selectPattern .pip n fps = .bars ↔ (n : Int) % fps = 0)
    ∧ (selectPattern .pip n fps = .black ↔ ¬ (n : Int) % fps = 0)
    ∧ (selectPattern .drop n fps = .black ↔ (n : Int) % fps = 0)
    ∧ (selectPattern .drop n fps = .bars ↔ ¬ (n : Int) % fps = 0)
    ∧ (∃! m : Nat, n ≤ m ∧ (m : Int) < n + fps ∧ selectPattern .pip m fps = .bars)
    ∧ (∃! m : Nat, n ≤ m ∧ (m : Int) < n + fps ∧ selectPattern .drop m fps = .black) := by
  have hpip : ∀ m : Nat, selectPattern .pip m fps = .bars ↔ (m : Int) % fps = 0 := by
    intro m
    simp only [selectPattern, natCast_tmod_eq_zero_iff m fps hfps]
    split_ifs with h <;> simp [h]
  have hdrop : ∀ m : Nat, selectPattern .drop m fps = .black ↔ (m : Int) % fps = 0 := by
    intro m
    simp only [selectPattern, natCast_tmod_eq_zero_iff m fps hfps]
    split_ifs with h <;> simp [h]
  refine ⟨hpip n, ?_, hdrop n, ?_, ?_, ?_⟩
  · rw [← hpip n]
    cases selectPattern .pip n fps <;> simp
  · rw [← hdrop n]
    cases selectPattern .drop n fps <;> simp
  · simpa only [hpip] using exists_unique_index_in_second fps hfps n
  · simpa only [hdrop] using exists_unique_index_in_second fps hfps n

theorem selectPattern_once_per_second_witness :
    (selectPattern .pip 60 30 = .bars ↔ ((60 : Nat) : Int) % 30 = 0)
    ∧ (selectPattern .pip 60 30 = .black ↔ ¬ ((60 : Nat) : Int) % 30 = 0)
    ∧ (selectPattern .drop 60 30 = .black ↔ ((60 : Nat) : Int) % 30 = 0)
    ∧ (selectPattern .drop 60 30 = .bars ↔ ¬ ((60 : Nat) : Int) % 30 = 0)
    ∧ (∃! m : Nat, 60 ≤ m ∧ (m : Int) < (60 : Nat) + 30 ∧ selectPattern .pip m 30 = .bars)
    ∧ (∃! m : Nat, 60 ≤ m ∧ (m : Int) < (60 : Nat) + 30 ∧ selectPattern .drop m 30 = .black) :=
  selectPattern_once_per_second 30 (by decide) 60

/-! ## Preroll -/

theorem videoSchedules_append (xs ys : List Event) :
    videoSchedules (xs ++ ys) = videoSchedules xs ++ videoSchedules ys := by
  simp [videoSchedules, List.filterMap_append]

theorem videoSchedules_nil : videoSchedules [] = [] := rfl

theorem videoSchedules_cons (e : Event) (xs : List Event) :
    videoSchedules (e :: xs)
      = (match e.call with
          | .scheduleVideoFrame _ displayTime displayDuration timeScale =>
            [⟨displayTime, displayDuration, timeScale⟩]
          | _ => []) ++ videoSchedules xs := by
  cases e with
  | mk call ok => cases call <;> simp [videoSchedules]

theorem videoSchedules_CreateOutputFrame (pixelFormat : PixelFormat) (w h : Nat) (fill : Pattern)
    (r : CreateFrameResults) :
    videoSchedules (CreateOutputFrame pixelFormat w h fill r).2 = [] := by
  unfold CreateOutputFrame
  simp only
  split_ifs <;> (try split) <;> (try split) <;> simp [videoSchedules]

theorem videoSchedules_scheduleNextFrame (prerolling : Bool) (r : FrameResults) (s : State)
    (hactive : prerolling = true ∨ s.running = true) (hr : r.Succeeds) :
    videoSchedules (scheduleNextFrame prerolling r s).2
      = [⟨(s.totalFramesScheduled : Int) * s.frameDuration, s.frameDuration,
          s.frameTimescale⟩] := by
  rw [scheduleNextFrame_calls prerolling r s hactive]
  obtain ⟨h1, h2, h3, h4, h5, h6⟩ := hr
  obtain ⟨dominance, hd⟩ := Option.isSome_iff_exists.mp h3
  simp only [timecodeCalls, hd, h1, h2, h4, h5]
  by_cases hf : s.timeCodeFormat = .vitc
  · simp [hf, Event.seq, videoSchedules]
  · cases hs : s.hfrtcSupported <;>
      cases hs1 : (selectTracks dominance s.framesPerSecond s.timeCode.frames).setVITC1Timecode <;>
      cases hs2 : (selectTracks dominance s.framesPerSecond s.timeCode.frames).setVITC2Timecode <;>
      simp [hf, Event.seq, videoSchedules, hs1, hs2]

theorem videoSchedules_preroll (results : Nat → FrameResults) (hr : ∀ i, (results i).Succeeds)
    (n : Nat) (s : State) :
    videoSchedules (preroll results n s).2
      = (List.range n).map fun i =>
          ⟨((s.totalFramesScheduled + i : Nat) : Int) * s.frameDuration, s.frameDuration,
            s.frameTimescale⟩ := by
  induction n with
  | zero => simp [preroll, videoSchedules]
  | succ n ih =>
    simp only [preroll, videoSchedules_append, ih,
      videoSchedules_scheduleNextFrame true (results n) _ (Or.inl rfl) (hr n), preroll_state,
      List.range_succ, List.map_append, List.map_cons, List.map_nil]


theorem framesPerSecondOf_nonneg (d t : Int) (hd : 0 < d) (ht : 0 ≤ t) :
    0 ≤ framesPerSecondOf d t :=
  Int.tdiv_nonneg (by omega) hd.le

theorem startRunning_success (ui : Selection) (r : StartResults) (s : State) (mode : DisplayMode)
    (hr : r.Succeeds) (hmode : r.displayMode = some mode) :
    (startRunning ui r s).1.running = true
      ∧ (startRunning ui r s).1.totalAudioSecondsScheduled = 0
      ∧ (startRunning ui r s).1.totalFramesScheduled
          = (framesPerSecondOf mode.frameDuration mode.frameTimescale).toNat
      ∧ (startRunning ui r s).1.timeCode
          = Timecode.update^[(framesPerSecondOf mode.frameDuration mode.frameTimescale).toNat]
              (Timecode.new (framesPerSecondOf mode.frameDuration mode.frameTimescale).toNat
                (dropFramesOf mode.frameDuration mode.frameTimescale).toNat)
      ∧ videoSchedules (startRunning ui r s).2
          = (List.range (framesPerSecondOf mode.frameDuration mode.frameTimescale).toNat).map
              fun i => ⟨(i : Int) * mode.frameDuration, mode.frameDuration,
                mode.frameTimescale⟩ := by
  obtain ⟨-, h2, -, h4, h5, h6, -, -, h9, h10⟩ := hr
  unfold startRunning
  simp only [hmode, h2, h4, h5, h6, h10]
  simp [preroll_state, videoSchedules_append, videoSchedules_CreateOutputFrame,
    videoSchedules_preroll _ h9, videoSchedules_cons, videoSchedules_nil]

theorem frameResults_allOk_succeeds (dominance : FieldDominance) :
    (FrameResults.allOk dominance).Succeeds :=
  ⟨rfl, rfl, rfl, rfl, rfl, rfl⟩

theorem startResults_allOk_succeeds (mode : DisplayMode) (dominance : FieldDominance)
    (hfrtc : Bool) : (StartResults.allOk mode dominance hfrtc).Succeeds :=
  ⟨rfl, rfl, rfl, rfl, rfl, rfl, ⟨rfl, rfl, rfl, rfl⟩, ⟨rfl, rfl, rfl, rfl⟩,
    fun _ => frameResults_allOk_succeeds dominance, rfl⟩

/-- C7: when every device call of `startRunning` succeeds (display mode with positive frame
duration and timescale), the preroll issues exactly `framesPerSecond` `ScheduleVideoFrame`
calls, the `i`-th at time offset `i * frameDuration` with duration `frameDuration` and
timescale `frameTimescale`, advances the timecode `framesPerSecond` times, and ends with
`totalFramesScheduled = framesPerSecond`, `totalAudioSecondsScheduled = 0` and
`running = true`. -/
theorem startRunning_preroll (ui : Selection) (r : StartResults) (s : State) (mode : DisplayMode)
    (hr : r.Succeeds) (hmode : r.displayMode = some mode) (hd : 0 < mode.frameDuration)
    (ht : 0 < mode.frameTimescale) :
    videoSchedules (startRunning ui r s).2
        = (List.range (startRunning ui r s).1.framesPerSecond.toNat).map
            (fun i => ⟨(i : Int) * mode.frameDuration, mode.frameDuration, mode.frameTimescale⟩)
      ∧ ((videoSchedules (startRunning ui r s).2).length : Int)
          = (startRunning ui r s).1.framesPerSecond
      ∧ (startRunning ui r s).1.timeCode
          = Timecode.update^[(startRunning ui r s).1.framesPerSecond.toNat]
              (Timecode.new (startRunning ui r s).1.framesPerSecond.toNat
                (startRunning ui r s).1.dropFrames.toNat)
      ∧ ((startRunning ui r s).1.totalFramesScheduled : Int)
          = (startRunning ui r s).1.framesPerSecond
      ∧ (startRunning ui r s).1.totalAudioSecondsScheduled = 0
      ∧ (startRunning ui r s).1.running = true := by
  obtain ⟨hrun, haudio, htotal, htc, hcalls⟩ := startRunning_success ui r s mode hr hmode
  obtain ⟨hfps, hdrop, -, -⟩ := startRunning_cadence ui r s mode hmode
  have hnonneg := framesPerSecondOf_nonneg mode.frameDuration mode.frameTimescale hd ht.le
  rw [hfps, hdrop]
  refine ⟨hcalls, ?_, htc, ?_, haudio, hrun⟩
  · rw [hcalls, List.length_map, List.length_range, Int.toNat_of_nonneg hnonneg]
  · rw [htotal, Int.toNat_of_nonneg hnonneg]

theorem startRunning_preroll_witness :
    videoSchedules (startRunning (Selection.stereo .pip)
          (StartResults.allOk modePAL .progressiveFrame false) (State.initial .pal)).2
        = (List.range (startRunning (Selection.stereo .pip)
            (StartResults.allOk modePAL .progressiveFrame false)
            (State.initial .pal)).1.framesPerSecond.toNat).map
            (fun i => ⟨(i : Int) * modePAL.frameDuration, modePAL.frameDuration,
              modePAL.frameTimescale⟩)
      ∧ ((videoSchedules (startRunning (Selection.stereo .pip)
          (StartResults.allOk modePAL .progressiveFrame false) (State.initial .pal)).2).length
            : Int)
          = (startRunning (Selection.stereo .pip)
              (StartResults.allOk modePAL .progressiveFrame false)
              (State.initial .pal)).1.framesPerSecond
      ∧ (startRunning (Selection.stereo .pip)
            (StartResults.allOk modePAL .progressiveFrame false) (State.initial .pal)).1.timeCode
          = Timecode.update^[(startRunning (Selection.stereo .pip)
              (StartResults.allOk modePAL .progressiveFrame false)
              (State.initial .pal)).1.framesPerSecond.toNat]
              (Timecode.new (startRunning (Selection.stereo .pip)
                  (StartResults.allOk modePAL .progressiveFrame false)
                  (State.initial .pal)).1.framesPerSecond.toNat
                (startRunning (Selection.stereo .pip)
                  (StartResults.allOk modePAL .progressiveFrame false)
                  (State.initial .pal)).1.dropFrames.toNat)
      ∧ ((startRunning (Selection.stereo .pip)
            (StartResults.allOk modePAL .progressiveFrame false)
            (State.initial .pal)).1.totalFramesScheduled : Int)
          = (startRunning (Selection.stereo .pip)
              (StartResults.allOk modePAL .progressiveFrame false)
              (State.initial .pal)).1.framesPerSecond
      ∧ (startRunning (Selection.stereo .pip)
            (StartResults.allOk modePAL .progressiveFrame false)
            (State.initial .pal)).1.totalAudioSecondsScheduled = 0
      ∧ (startRunning (Selection.stereo .pip)
            (StartResults.allOk modePAL .progressiveFrame false)
            (State.initial .pal)).1.running = true :=
  startRunning_preroll (Selection.stereo .pip) (StartResults.allOk modePAL .progressiveFrame false)
    (State.initial .pal) modePAL (startResults_allOk_succeeds _ _ _) rfl (by decide) (by decide)

theorem startRunning_pal_preroll_length :
    (videoSchedules (startRunning (Selection.stereo .pip)
      (StartResults.allOk modePAL .progressiveFrame false) (State.initial .pal)).2).length = 25 := by
  decide

/-! ## Ordering of the scheduled offsets -/

theorem audioSchedules_append (xs ys : List Event) :
    audioSchedules (xs ++ ys) = audioSchedules xs ++ audioSchedules ys := by
  simp [audioSchedules, List.filterMap_append]

theorem TimecodeSteps.refl (rest : List Event) : TimecodeSteps rest rest :=
  ⟨[], by simp, Or.inl rfl⟩

theorem TimecodeSteps.seq {rest calls : List Event} (h : TimecodeSteps rest calls) (call : Call)
    (hcall : call.isTimecodeStep = true) (ok : Bool) :
    TimecodeSteps rest (Event.seq call ok calls) := by
  obtain ⟨steps, hsteps, hcalls⟩ := h
  cases ok with
  | false => exact ⟨[⟨call, false⟩], by simp [hcall], Or.inr (by simp [Event.seq])⟩
  | true =>
    refine ⟨⟨call, true⟩ :: steps, ?_, ?_⟩
    · intro e he
      rcases List.mem_cons.mp he with rfl | he
      · exact hcall
      · exact hsteps e he
    · rcases hcalls with h | h
      · exact Or.inl (by simp [Event.seq, h])
      · exact Or.inr (by simp [Event.seq, h])

theorem TimecodeSteps.seq_if {rest calls : List Event} (h : TimecodeSteps rest calls)
    (condition : Bool) (call : Call) (hcall : call.isTimecodeStep = true) (ok : Bool) :
    TimecodeSteps rest (if condition = true then Event.seq call ok calls else calls) := by
  cases condition with
  | false => simpa using h
  | true => simpa using h.seq call hcall ok

theorem timecodeCalls_steps (r : FrameResults) (s : State) (rest : List Event) :
    TimecodeSteps rest (timecodeCalls r s rest) := by
  unfold timecodeCalls
  simp only
  repeat' first
    | exact TimecodeSteps.refl rest
    | refine TimecodeSteps.seq ?_ _ ?_ _
    | rfl
    | split

theorem audioSchedules_cons (e : Event) (xs : List Event) :
    audioSchedules (e :: xs)
      = (match e.call with
          | .scheduleAudioSamples _ sampleFrameCount streamTime _ =>
            [⟨sampleFrameCount, streamTime, e.ok⟩]
          | _ => []) ++ audioSchedules xs := by
  cases e with
  | mk call ok => cases call <;> simp [audioSchedules]

theorem videoSchedules_steps (steps : List Event)
    (h : ∀ e ∈ steps, e.call.isTimecodeStep = true) : videoSchedules steps = [] := by
  induction steps with
  | nil => rfl
  | cons e steps ih =>
    have he := h e (List.mem_cons_self _ _)
    rw [videoSchedules_cons, ih fun e' he' => h e' (List.mem_cons_of_mem _ he')]
    cases e with
    | mk call ok =>
      cases call <;> first
        | rfl
        | exact absurd he (by simp [Call.isTimecodeStep])

theorem audioSchedules_steps (steps : List Event)
    (h : ∀ e ∈ steps, e.call.isTimecodeStep = true) : audioSchedules steps = [] := by
  induction steps with
  | nil => rfl
  | cons e steps ih =>
    have he := h e (List.mem_cons_self _ _)
    rw [audioSchedules_cons, ih fun e' he' => h e' (List.mem_cons_of_mem _ he')]
    cases e with
    | mk call ok =>
      cases call <;> first
        | rfl
        | exact absurd he (by simp [Call.isTimecodeStep])

theorem timecodeCalls_cases (r : FrameResults) (s : State) (rest : List Event) :
    (videoSchedules (timecodeCalls r s rest) = videoSchedules rest
        ∨ videoSchedules (timecodeCalls r s rest) = [])
      ∧ (audioSchedules (timecodeCalls r s rest) = audioSchedules rest
        ∨ audioSchedules (timecodeCalls r s rest) = []) := by
  obtain ⟨steps, hsteps, h | h⟩ := timecodeCalls_steps r s rest
  · rw [h, videoSchedules_append, audioSchedules_append, videoSchedules_steps steps hsteps,
      audioSchedules_steps steps hsteps]
    simp
  · rw [h, videoSchedules_steps steps hsteps, audioSchedules_steps steps hsteps]
    simp

theorem scheduleNextFrame_schedules (prerolling : Bool) (r : FrameResults) (s : State) :
    audioSchedules (scheduleNextFrame prerolling r s).2 = []
      ∧ (scheduleNextFrame prerolling r s).1.totalAudioSecondsScheduled
          = s.totalAudioSecondsScheduled
      ∧ ((videoSchedules (scheduleNextFrame prerolling r s).2 = []
          ∧ s.totalFramesScheduled ≤ (scheduleNextFrame prerolling r s).1.totalFramesScheduled)
        ∨ (videoSchedules (scheduleNextFrame prerolling r s).2
            = [⟨(s.totalFramesScheduled : Int) * s.frameDuration, s.frameDuration,
                s.frameTimescale⟩]
          ∧ (scheduleNextFrame prerolling r s).1.totalFramesScheduled
              = s.totalFramesScheduled + 1)) := by
  by_cases hguard : prerolling = false ∧ s.running = false
  · simp [scheduleNextFrame, hguard, videoSchedules, audioSchedules]
  · simp only [scheduleNextFrame, if_neg hguard]
    obtain ⟨hv, ha⟩ := timecodeCalls_cases r s
      [⟨.scheduleVideoFrame (currentFrame s) ((s.totalFramesScheduled : Int) * s.frameDuration)
          s.frameDuration s.frameTimescale, r.scheduleVideoFrame⟩]
    refine ⟨?_, trivial, ?_⟩
    · rcases ha with h | h
      · rw [h]
        rfl
      · rw [h]
    · rcases hv with h | h
      · right
        rw [h]
        simp [videoSchedules]
      · left
        rw [h]
        simp

theorem Op.run_static (op : Op) (s : State) :
    (op.run s).1.frameDuration = s.frameDuration
      ∧ (op.run s).1.frameTimescale = s.frameTimescale
      ∧ (op.run s).1.outputSignal = s.outputSignal
      ∧ (op.run s).1.audioBufferSampleLength = s.audioBufferSampleLength
      ∧ (op.run s).1.audioSamplesPerFrame = s.audioSamplesPerFrame
      ∧ (op.run s).1.running = s.running := by
  cases op with
  | frame prerolling results =>
    simp only [Op.run, scheduleNextFrame]
    split_ifs
    all_goals simp
  | audioSamples ok =>
    cases ok <;> simp [Op.run, writeNextAudioSamples]

theorem run_video_increasing (ops : List Op) (s : State) (hd : 0 < s.frameDuration) :
    (∀ v ∈ videoSchedules (run ops s).2,
        (s.totalFramesScheduled : Int) * s.frameDuration ≤ v.displayTime)
      ∧ ((videoSchedules (run ops s).2).map (·.displayTime)).Pairwise (· < ·) := by
  induction ops generalizing s with
  | nil => simp [run, videoSchedules]
  | cons op ops ih =>
    have hstatic := Op.run_static op s
    have hd' : 0 < (op.run s).1.frameDuration := by rw [hstatic.1]; exact hd
    obtain ⟨ihge, ihpw⟩ := ih (op.run s).1 hd'
    rw [hstatic.1] at ihge
    have hstep : (videoSchedules (op.run s).2 = []
          ∧ s.totalFramesScheduled ≤ (op.run s).1.totalFramesScheduled)
        ∨ (videoSchedules (op.run s).2
            = [⟨(s.totalFramesScheduled : Int) * s.frameDuration, s.frameDuration,
                s.frameTimescale⟩]
          ∧ (op.run s).1.totalFramesScheduled = s.totalFramesScheduled + 1) := by
      cases op with
      | frame prerolling results => exact (scheduleNextFrame_schedules prerolling results s).2.2
      | audioSamples ok =>
        left
        cases ok <;> cases hsig : s.outputSignal <;>
          simp [Op.run, writeNextAudioSamples, videoSchedules, audioCall, hsig]
    simp only [run, videoSchedules_append, List.map_append, List.pairwise_append, List.mem_append,
      List.mem_map]
    rcases hstep with ⟨hnil, hle⟩ | ⟨hone, hsucc⟩
    · rw [hnil]
      refine ⟨fun v hv => ?_, by simp, ihpw, by simp⟩
      rcases hv with hv | hv
      · simp at hv
      · have h1 := ihge v hv
        have h2 : (s.totalFramesScheduled : Int) * s.frameDuration
            ≤ ((op.run s).1.totalFramesScheduled : Int) * s.frameDuration :=
          Int.mul_le_mul_of_nonneg_right (by exact_mod_cast hle) hd.le
        omega
    · rw [hone]
      have hlt : ∀ v ∈ videoSchedules (run ops (op.run s).1).2,
          (s.totalFramesScheduled : Int) * s.frameDuration < v.displayTime := by
        intro v hv
        have h1 := ihge v hv
        rw [hsucc] at h1
        push_cast at h1
        rw [add_mul, one_mul] at h1
        omega
      refine ⟨fun v hv => ?_, by simp, ihpw, ?_⟩
      · rcases hv with hv | hv
        · simp at hv
          rw [hv]
        · exact (hlt v hv).le
      · rintro a ⟨v, hv, rfl⟩ b ⟨w, hw, rfl⟩
        simp at hv
        rw [hv]
        exact hlt w hw

theorem audioSchedules_writeNextAudioSamples (ok : Bool) (s : State) :
    audioSchedules (writeNextAudioSamples ok s).2
      = [⟨audioSampleCount s, audioStreamTime s, ok⟩] := by
  cases hsig : s.outputSignal <;>
    simp [writeNextAudioSamples, audioSchedules, audioCall, audioSampleCount, audioStreamTime, hsig]

theorem audioStreamTime_writeNextAudioSamples (ok : Bool) (s : State) :
    audioStreamTime (writeNextAudioSamples ok s).1
      = audioStreamTime s + if ok = true then s.audioBufferSampleLength else 0 := by
  cases ok <;> cases hsig : s.outputSignal <;>
    simp [writeNextAudioSamples, audioStreamTime, hsig] <;> ring

theorem audioStreamTime_scheduleNextFrame (prerolling : Bool) (r : FrameResults) (s : State) :
    audioStreamTime (scheduleNextFrame prerolling r s).1 = audioStreamTime s := by
  simp only [scheduleNextFrame]
  split_ifs
  all_goals rfl

theorem run_audio_ordered (ops : List Op) (s : State) (hL : 0 < s.audioBufferSampleLength) :
    (∀ a ∈ audioSchedules (run ops s).2, audioStreamTime s ≤ a.streamTime)
      ∧ (∀ a ∈ (audioSchedules (run ops s).2).head?, a.streamTime = audioStreamTime s)
      ∧ (audioSchedules (run ops s).2).Pairwise
          (fun a b => a.streamTime ≤ b.streamTime ∧ (a.accepted = true → a.streamTime < b.streamTime))
      ∧ (audioSchedules (run ops s).2).Chain'
          (fun a b => a.accepted = false → b.streamTime = a.streamTime) := by
  induction ops generalizing s with
  | nil => simp [run, audioSchedules]
  | cons op ops ih =>
    have hstatic := Op.run_static op s
    have hL' : 0 < (op.run s).1.audioBufferSampleLength := by rw [hstatic.2.2.2.1]; exact hL
    obtain ⟨ihge, ihhead, ihpw, ihchain⟩ := ih (op.run s).1 hL'
    simp only [run, audioSchedules_append]
    cases op with
    | frame prerolling results =>
      simp only [Op.run] at ihge ihhead ihpw ihchain ⊢
      rw [audioStreamTime_scheduleNextFrame] at ihge ihhead
      rw [(scheduleNextFrame_schedules prerolling results s).1, List.nil_append]
      exact ⟨ihge, ihhead, ihpw, ihchain⟩
    | audioSamples ok =>
      simp only [Op.run] at ihge ihhead ihpw ihchain ⊢
      rw [audioStreamTime_writeNextAudioSamples] at ihge ihhead
      rw [audioSchedules_writeNextAudioSamples]
      refine ⟨?_, by simp, ?_, ?_⟩
      · intro a ha
        rcases List.mem_append.mp ha with ha | ha
        · simp at ha
          rw [ha]
        · have := ihge a ha
          split_ifs at this <;> omega
      · refine List.pairwise_append.mpr ⟨by simp, ihpw, ?_⟩
        intro a ha b hb
        simp at ha
        have := ihge b hb
        subst ha
        dsimp only
        refine ⟨by split_ifs at this <;> omega, fun hok => ?_⟩
        rw [if_pos hok] at this
        omega
      · rw [List.singleton_append, List.chain'_cons']
        refine ⟨fun b hb hrej => ?_, ihchain⟩
        simp only at hrej
        have := ihhead b hb
        simpa [hrej] using this

/-- C8 corrected: within one session (`frameDuration > 0`, `audioBufferSampleLength > 0`), for
every sequence of preroll and feed calls and whatever the device returns, the time offsets
of successive `ScheduleVideoFrame` calls are strictly increasing; the start offsets of
successive `ScheduleAudioSamples` calls never decrease and are strictly larger after every
call the device accepted, while the call following a rejected one starts at the same
offset. -/
theorem run_offsets_ordered (ops : List Op) (s : State) (hd : 0 < s.frameDuration)
    (hL : 0 < s.audioBufferSampleLength) :
    ((videoSchedules (run ops s).2).map (·.displayTime)).Pairwise (· < ·)
      ∧ ((audioSchedules (run ops s).2).map (·.streamTime)).Pairwise (· ≤ ·)
      ∧ (audioSchedules (run ops s).2).Pairwise
          (fun a b => a.accepted = true → a.streamTime < b.streamTime)
      ∧ (audioSchedules (run ops s).2).Chain'
          (fun a b => a.accepted = false → b.streamTime = a.streamTime) := by
  obtain ⟨-, -, hpw, hchain⟩ := run_audio_ordered ops s hL
  refine ⟨(run_video_increasing ops s hd).2, ?_, ?_, hchain⟩
  · rw [List.pairwise_map]
    exact hpw.imp fun h => h.1
  · exact hpw.imp fun h => h.2

theorem run_offsets_ordered_witness :
    ((videoSchedules (run [.frame false (FrameResults.allOk .progressiveFrame),
          .audioSamples false, .frame false (FrameResults.allOk .progressiveFrame),
          .audioSamples true, .audioSamples true]
        (State.playing .pip modePAL false (Timecode.atFrame 25 0 0) 25 0)).2).map
          (·.displayTime)).Pairwise (· < ·)
      ∧ ((audioSchedules (run [.frame false (FrameResults.allOk .progressiveFrame),
          .audioSamples false, .frame false (FrameResults.allOk .progressiveFrame),
          .audioSamples true, .audioSamples true]
        (State.playing .pip modePAL false (Timecode.atFrame 25 0 0) 25 0)).2).map
          (·.streamTime)).Pairwise (· ≤ ·)
      ∧ (audioSchedules (run [.frame false (FrameResults.allOk .progressiveFrame),
          .audioSamples false, .frame false (FrameResults.allOk .progressiveFrame),
          .audioSamples true, .audioSamples true]
        (State.playing .pip modePAL false (Timecode.atFrame 25 0 0) 25 0)).2).Pairwise
          (fun a b => a.accepted = true → a.streamTime < b.streamTime)
      ∧ (audioSchedules (run [.frame false (FrameResults.allOk .progressiveFrame),
          .audioSamples false, .frame false (FrameResults.allOk .progressiveFrame),
          .audioSamples true, .audioSamples true]
        (State.playing .pip modePAL false (Timecode.atFrame 25 0 0) 25 0)).2).Chain'
          (fun a b => a.accepted = false → b.streamTime = a.streamTime) :=
  run_offsets_ordered _ (State.playing .pip modePAL false (Timecode.atFrame 25 0 0) 25 0)
    (by decide) (by decide)

theorem audio_offset_issued_twice :
    0 < (State.playing .pip modePAL false (Timecode.atFrame 25 0 0) 25 0).frameDuration
      ∧ 0 < (State.playing .pip modePAL false (Timecode.atFrame 25 0 0) 25 0).audioBufferSampleLength
      ∧ (audioSchedules (run [.audioSamples false, .audioSamples true]
          (State.playing .pip modePAL false (Timecode.atFrame 25 0 0) 25 0)).2).map
            (·.streamTime) = [0, 0]
      ∧ ¬ ((audioSchedules (run [.audioSamples false, .audioSamples true]
          (State.playing .pip modePAL false (Timecode.atFrame 25 0 0) 25 0)).2).map
            (·.streamTime)).Pairwise (· < ·) := by
  decide

/-! ## Feed operations while not running -/

theorem run_frames_not_running (results : List FrameResults) (s : State)
    (hstopped : s.running = false) :
    run (results.map (Op.frame false)) s = (s, []) := by
  induction results with
  | nil => rfl
  | cons r results ih =>
    simp only [List.map_cons, run, Op.run, scheduleNextFrame, hstopped, and_self, if_true, ih,
      List.append_nil]

/-- C9 corrected: while `running` is false, `scheduleNextFrame(false)` is a no-op: it issues no
device call and leaves the state (frame counter, audio counter, timecode) unchanged, so any
number of calls has the effect of none.  `writeNextAudioSamples` has no such guard: it
issues its one `ScheduleAudioSamples` call whatever the `running` flag, leaves the frame
counter and the timecode unchanged, and advances `totalAudioSecondsScheduled` by one when
the device accepts the call. -/
theorem feed_not_running (s : State) (hstopped : s.running = false) :
    (∀ r, scheduleNextFrame false r s = (s, []))
      ∧ (∀ results : List FrameResults, run (results.map (Op.frame false)) s = (s, []))
      ∧ (∀ ok, (writeNextAudioSamples ok s).2 = [⟨audioCall s, ok⟩]
          ∧ (writeNextAudioSamples ok s).1.totalFramesScheduled = s.totalFramesScheduled
          ∧ (writeNextAudioSamples ok s).1.timeCode = s.timeCode
          ∧ (writeNextAudioSamples ok s).1.running = false
          ∧ (writeNextAudioSamples ok s).1.totalAudioSecondsScheduled
              = s.totalAudioSecondsScheduled + if ok = true then 1 else 0) := by
  refine ⟨fun r => ?_, fun results => run_frames_not_running results s hstopped, fun ok => ?_⟩
  · simp [scheduleNextFrame, hstopped]
  · cases ok <;> simp [writeNextAudioSamples, hstopped]

theorem feed_not_running_witness :
    (∀ r, scheduleNextFrame false r
        (stopRunning (State.playing .pip modePAL false (Timecode.atFrame 25 0 3) 28 1)).1
          = ((stopRunning (State.playing .pip modePAL false (Timecode.atFrame 25 0 3) 28 1)).1, []))
      ∧ (∀ results : List FrameResults, run (results.map (Op.frame false))
        (stopRunning (State.playing .pip modePAL false (Timecode.atFrame 25 0 3) 28 1)).1
          = ((stopRunning (State.playing .pip modePAL false (Timecode.atFrame 25 0 3) 28 1)).1, []))
      ∧ (∀ ok,
          (writeNextAudioSamples ok
            (stopRunning (State.playing .pip modePAL false (Timecode.atFrame 25 0 3) 28 1)).1).2
            = [⟨audioCall
                (stopRunning (State.playing .pip modePAL false (Timecode.atFrame 25 0 3) 28 1)).1,
                ok⟩]
          ∧ (writeNextAudioSamples ok
              (stopRunning (State.playing .pip modePAL false (Timecode.atFrame 25 0 3) 28
                1)).1).1.totalFramesScheduled
              = (stopRunning (State.playing .pip modePAL false (Timecode.atFrame 25 0 3) 28
                1)).1.totalFramesScheduled
          ∧ (writeNextAudioSamples ok
              (stopRunning (State.playing .pip modePAL false (Timecode.atFrame 25 0 3) 28
                1)).1).1.timeCode
              = (stopRunning (State.playing .pip modePAL false (Timecode.atFrame 25 0 3) 28
                1)).1.timeCode
          ∧ (writeNextAudioSamples ok
              (stopRunning (State.playing .pip modePAL false (Timecode.atFrame 25 0 3) 28
                1)).1).1.running = false
          ∧ (writeNextAudioSamples ok
              (stopRunning (State.playing .pip modePAL false (Timecode.atFrame 25 0 3) 28
                1)).1).1.totalAudioSecondsScheduled
              = (stopRunning (State.playing .pip modePAL false (Timecode.atFrame 25 0 3) 28
                  1)).1.totalAudioSecondsScheduled + if ok = true then 1 else 0) :=
  feed_not_running
    (stopRunning (State.playing .pip modePAL false (Timecode.atFrame 25 0 3) 28 1)).1 rfl

theorem writeNextAudioSamples_after_stop :
    (stopRunning (State.playing .pip modePAL false (Timecode.atFrame 25 0 3) 28 1)).1.running
        = false
      ∧ (writeNextAudioSamples true
          (stopRunning (State.playing .pip modePAL false (Timecode.atFrame 25 0 3) 28 1)).1).2
          = [⟨.scheduleAudioSamples false 1920 48000 48000, true⟩]
      ∧ (stopRunning (State.playing .pip modePAL false (Timecode.atFrame 25 0 3) 28
          1)).1.totalAudioSecondsScheduled = 1
      ∧ (writeNextAudioSamples true
          (stopRunning (State.playing .pip modePAL false (Timecode.atFrame 25 0 3) 28
            1)).1).1.totalAudioSecondsScheduled = 2 := by
  decide

/-! ## Audio of pattern "dropout" -/

theorem audio_lengths (rate : Nat) (d t : Int) (hfps : 1 ≤ framesPerSecondOf d t) (ht : 0 < t) :
    audioSamplesPerFrameOf rate d t ≤ audioBufferSampleLengthOf (framesPerSecondOf d t) rate d t
      ∧ (0 ≤ audioSamplesPerFrameOf rate d t
        ∨ audioSamplesPerFrameOf rate d t
            = audioBufferSampleLengthOf (framesPerSecondOf d t) rate d t) := by
  rcases lt_trichotomy d 0 with hd | hd | hd
  · have ht1 : t = 1 := by
      unfold framesPerSecondOf at hfps
      rcases le_or_lt 0 (t + (d - 1)) with hnum | hnum
      · have h := Int.tdiv_nonneg hnum (by omega : (0 : Int) ≤ -d)
        rw [Int.tdiv_neg] at h
        omega
      · have h : (t + (d - 1)).tdiv d = (-(t + (d - 1))).tdiv (-d) := by
          rw [Int.tdiv_neg, Int.neg_tdiv, neg_neg]
        rw [h, Int.tdiv_eq_ediv (by omega) (by omega)] at hfps
        have := (Int.le_ediv_iff_mul_le (by omega : 0 < -d)).mp hfps
        omega
    subst ht1
    have hfps1 : framesPerSecondOf d 1 = 1 := by
      unfold framesPerSecondOf
      rw [show (1 : Int) + (d - 1) = d by ring]
      exact Int.tdiv_self (ne_of_lt hd)
    simp [audioSamplesPerFrameOf, audioBufferSampleLengthOf, hfps1]
  · subst hd
    simp [framesPerSecondOf] at hfps
  · have hnn : 0 ≤ (rate : Int) * d := by positivity
    have hle : (rate : Int) * d ≤ framesPerSecondOf d t * rate * d := by nlinarith
    unfold audioSamplesPerFrameOf audioBufferSampleLengthOf
    rw [Int.tdiv_eq_ediv hnn ht.le, Int.tdiv_eq_ediv (hnn.trans hle) ht.le]
    exact ⟨Int.ediv_le_ediv ht hle, Or.inl (Int.ediv_nonneg hnn ht.le)⟩

theorem startRunning_audio (ui : Selection) (r : StartResults) (s : State) (mode : DisplayMode)
    (hr : r.Succeeds) (hmode : r.displayMode = some mode) :
    (startRunning ui r s).1.outputSignal = ui.outputSignal
      ∧ (startRunning ui r s).1.audioSamplesPerFrame
          = audioSamplesPerFrameOf bmdAudioSampleRate48kHz mode.frameDuration mode.frameTimescale
      ∧ (startRunning ui r s).1.audioBufferSampleLength
          = audioBufferSampleLengthOf (framesPerSecondOf mode.frameDuration mode.frameTimescale)
              bmdAudioSampleRate48kHz mode.frameDuration mode.frameTimescale := by
  obtain ⟨-, h2, -, h4, h5, h6, -, -, -, h10⟩ := hr
  unfold startRunning
  simp only [hmode, h2, h4, h5, h6, h10]
  simp [preroll_state]

theorem run_audio_accepted (ops : List Op) (s : State) (hsig : s.outputSignal = .drop) :
    (audioSchedules (run ops s).2).filter (·.accepted)
      = (List.range (ops.count (.audioSamples true))).map fun i =>
          ⟨s.audioBufferSampleLength - s.audioSamplesPerFrame,
            ((s.totalAudioSecondsScheduled + i : Nat) : Int) * s.audioBufferSampleLength
              + s.audioSamplesPerFrame, true⟩ := by
  induction ops generalizing s with
  | nil => simp [run, audioSchedules]
  | cons op ops ih =>
    obtain ⟨-, -, hsig', hL, hF, -⟩ := Op.run_static op s
    have ih' := ih (op.run s).1 (hsig'.trans hsig)
    rw [hL, hF] at ih'
    simp only [run, audioSchedules_append, List.filter_append, ih']
    cases op with
    | frame prerolling results =>
      obtain ⟨hnone, hcount, -⟩ := scheduleNextFrame_schedules prerolling results s
      simp only [Op.run] at hnone hcount ⊢
      rw [hnone, hcount]
      simp
    | audioSamples ok =>
      simp only [Op.run, audioSchedules_writeNextAudioSamples]
      cases ok with
      | false =>
        rw [show (writeNextAudioSamples false s).1 = s from rfl]
        simp
      | true =>
        simp only [writeNextAudioSamples, if_true, List.count_cons_self, List.range_succ_eq_map,
          List.map_cons, List.map_map, audioSampleCount, audioStreamTime, hsig]
        simp only [List.filter_cons_of_pos, List.filter_nil, List.singleton_append, Nat.add_zero,
          List.cons.injEq, true_and]
        apply List.map_congr_left
        intro i _
        simp only [Function.comp, Nat.succ_eq_add_one]
        congr 3
        omega

/-- C10: for pattern "dropout", with `L = audioBufferSampleLength` and
`F = audioSamplesPerFrame` as computed by `startRunning` (`framesPerSecond ≥ 1`,
`frameTimescale > 0`): `F ≤ L`; among any preroll and feed calls after Start, the `n`-th accepted
`writeNextAudioSamples` call schedules `L - F` samples starting at `n * L + F`; the chunk ends at `(n + 1) * L`; the first-frame
interval `[n * L, n * L + F)` and the chunk are disjoint and together make up
`[n * L, (n + 1) * L)`, which is disjoint from the next cycle. -/
theorem dropout_audio_covers_second (ui : Selection) (r : StartResults) (s : State)
    (mode : DisplayMode) (L F : Int) (ops : List Op)
    (hr : r.Succeeds) (hmode : r.displayMode = some mode) (hsig : ui.outputSignal = .drop)
    (hL : L = (startRunning ui r s).1.audioBufferSampleLength)
    (hF : F = (startRunning ui r s).1.audioSamplesPerFrame)
    (hfps : 1 ≤ (startRunning ui r s).1.framesPerSecond)
    (ht : 0 < (startRunning ui r s).1.frameTimescale) :
    F ≤ L
      ∧ (audioSchedules (run ops (startRunning ui r s).1).2).filter (·.accepted)
          = (List.range (ops.count (.audioSamples true))).map
              (fun n => ⟨L - F, (n : Int) * L + F, true⟩)
      ∧ ∀ n : Nat,
          ((n : Int) * L + F) + (L - F) = ((n : Int) + 1) * L
          ∧ Set.Ico ((n : Int) * L) ((n : Int) * L + F)
              ∪ Set.Ico ((n : Int) * L + F) (((n : Int) * L + F) + (L - F))
              = Set.Ico ((n : Int) * L) (((n : Int) + 1) * L)
          ∧ Disjoint (Set.Ico ((n : Int) * L) ((n : Int) * L + F))
              (Set.Ico ((n : Int) * L + F) (((n : Int) * L + F) + (L - F)))
          ∧ Disjoint (Set.Ico ((n : Int) * L) (((n : Int) + 1) * L))
              (Set.Ico (((n : Int) + 1) * L) (((n : Int) + 2) * L)) := by
  obtain ⟨hfps', -, -, ht'⟩ := startRunning_cadence ui r s mode hmode
  obtain ⟨hsig', hF', hL'⟩ := startRunning_audio ui r s mode hr hmode
  obtain ⟨-, hzero, -⟩ := startRunning_success ui r s mode hr hmode
  rw [hfps'] at hfps
  rw [ht'] at ht
  obtain ⟨hle, hsign⟩ := audio_lengths bmdAudioSampleRate48kHz _ _ hfps ht
  rw [← hF', ← hL', ← hF, ← hL] at hle hsign
  refine ⟨hle, ?_, fun n => ⟨by ring, ?_, ?_, ?_⟩⟩
  · rw [run_audio_accepted ops _ (hsig'.trans hsig), hzero, ← hL, ← hF]
    simp
  · have hend : ((n : Int) * L + F) + (L - F) = ((n : Int) + 1) * L := by ring
    rw [hend]
    ext x
    simp only [Set.mem_union, Set.mem_Ico]
    have hmul : ((n : Int) + 1) * L = (n : Int) * L + L := by ring
    rw [hmul]
    generalize (n : Int) * L = m
    rcases hsign with h | h <;> omega
  · rw [Set.disjoint_left]
    intro x hx hx'
    simp only [Set.mem_Ico] at hx hx'
    omega
  · rw [Set.disjoint_left]
    intro x hx hx'
    simp only [Set.mem_Ico] at hx hx'
    omega

theorem dropout_audio_covers_second_witness :
    (1920 : Int) ≤ 48000
      ∧ (audioSchedules (run [.audioSamples true, .frame false (FrameResults.allOk .progressiveFrame),
              .audioSamples false, .audioSamples true]
            (startRunning (Selection.stereo .drop)
              (StartResults.allOk modePAL .progressiveFrame false) (State.initial .pal)).1).2).filter
            (·.accepted)
          = (List.range (List.count (Op.audioSamples true)
              [.audioSamples true, .frame false (FrameResults.allOk .progressiveFrame),
                .audioSamples false, .audioSamples true])).map
              (fun n => ⟨48000 - 1920, (n : Int) * 48000 + 1920, true⟩)
      ∧ ∀ n : Nat,
          ((n : Int) * 48000 + 1920) + (48000 - 1920) = ((n : Int) + 1) * 48000
          ∧ Set.Ico ((n : Int) * 48000) ((n : Int) * 48000 + 1920)
              ∪ Set.Ico ((n : Int) * 48000 + 1920) (((n : Int) * 48000 + 1920) + (48000 - 1920))
              = Set.Ico ((n : Int) * 48000) (((n : Int) + 1) * 48000)
          ∧ Disjoint (Set.Ico ((n : Int) * 48000) ((n : Int) * 48000 + 1920))
              (Set.Ico ((n : Int) * 48000 + 1920) (((n : Int) * 48000 + 1920) + (48000 - 1920)))
          ∧ Disjoint (Set.Ico ((n : Int) * 48000) (((n : Int) + 1) * 48000))
              (Set.Ico (((n : Int) + 1) * 48000) (((n : Int) + 2) * 48000)) :=
  dropout_audio_covers_second (Selection.stereo .drop)
    (StartResults.allOk modePAL .progressiveFrame false) (State.initial .pal) modePAL 48000 1920
    [.audioSamples true, .frame false (FrameResults.allOk .progressiveFrame),
      .audioSamples false, .audioSamples true] (startResults_allOk_succeeds _ _ _) rfl rfl (by decide) (by decide)
    (by decide) (by decide)

theorem dropout_audio_pal_chunks :
    (audioSchedules (run [.audioSamples true, .frame false (FrameResults.allOk .progressiveFrame),
          .audioSamples false, .audioSamples true]
        (startRunning (Selection.stereo .drop)
          (StartResults.allOk modePAL .progressiveFrame false) (State.initial .pal)).1).2)
      = [⟨46080, 1920, true⟩, ⟨46080, 49920, false⟩, ⟨46080, 49920, true⟩] := by
  decide

/-! ## A failed timecode embed -/

theorem timecodeRun_refl (rest : List Event) : TimecodeRun rest rest :=
  Or.inl ⟨[], rfl, by simp⟩

theorem timecodeRun_seq {rest calls : List Event} (h : TimecodeRun rest calls) (call : Call)
    (hcall : call.isTimecodeStep = true) (ok : Bool) :
    TimecodeRun rest (Event.seq call ok calls) := by
  cases ok with
  | false => exact Or.inr ⟨[], ⟨call, false⟩, by simp [Event.seq], hcall, rfl, by simp⟩
  | true =>
    have hcons : ∀ steps : List Event,
        (∀ e ∈ steps, e.call.isTimecodeStep = true ∧ e.ok = true) →
        ∀ e ∈ (⟨call, true⟩ : Event) :: steps, e.call.isTimecodeStep = true ∧ e.ok = true := by
      intro steps hsteps e he
      rcases List.mem_cons.mp he with rfl | he
      · exact ⟨hcall, rfl⟩
      · exact hsteps e he
    rcases h with ⟨steps, hcalls, hsteps⟩ | ⟨steps, failed, hcalls, hfc, hfo, hsteps⟩
    · exact Or.inl ⟨⟨call, true⟩ :: steps, by simp [Event.seq, hcalls], hcons steps hsteps⟩
    · exact Or.inr ⟨⟨call, true⟩ :: steps, failed, by simp [Event.seq, hcalls], hfc, hfo,
        hcons steps hsteps⟩

theorem timecodeCalls_run (r : FrameResults) (s : State) (rest : List Event) :
    TimecodeRun rest (timecodeCalls r s rest) := by
  unfold timecodeCalls
  simp only
  repeat' first
    | exact timecodeRun_refl rest
    | refine timecodeRun_seq ?_ _ ?_ _
    | rfl
    | split

/-- C11: when a timecode embed call of `scheduleNextFrame` fails, it is the last call issued
for the frame: every call before it succeeded, no further embed and no `ScheduleVideoFrame`
call follows; the `running` flag is unchanged, `totalFramesScheduled` and the timecode have
advanced by one, and the next call, when its calls succeed, schedules at the next time
slot. -/
theorem scheduleNextFrame_embed_failure (prerolling : Bool) (r : FrameResults) (s : State)
    (e : Event) (he : e ∈ (scheduleNextFrame prerolling r s).2)
    (hembed : ∃ frame format hours minutes seconds frames flags,
      e.call = .setTimecodeFromComponents frame format hours minutes seconds frames flags)
    (hfail : e.ok = false) :
    (∃ steps : List Event, (scheduleNextFrame prerolling r s).2 = steps ++ [e]
        ∧ ∀ x ∈ steps, x.ok = true)
      ∧ videoSchedules (scheduleNextFrame prerolling r s).2 = []
      ∧ (scheduleNextFrame prerolling r s).1.running = s.running
      ∧ (scheduleNextFrame prerolling r s).1.totalFramesScheduled = s.totalFramesScheduled + 1
      ∧ (scheduleNextFrame prerolling r s).1.timeCode = s.timeCode.update
      ∧ ∀ r' : FrameResults, r'.Succeeds →
          videoSchedules (scheduleNextFrame prerolling r' (scheduleNextFrame prerolling r s).1).2
            = [⟨((s.totalFramesScheduled + 1 : Nat) : Int) * s.frameDuration, s.frameDuration,
                s.frameTimescale⟩] := by
  have hactive : prerolling = true ∨ s.running = true := by
    by_contra hne
    have hguard : prerolling = false ∧ s.running = false := by
      cases prerolling <;> cases hrun : s.running <;> simp_all
    simp [scheduleNextFrame, hguard] at he
  have hguard : ¬ (prerolling = false ∧ s.running = false) := by
    rcases hactive with h | h <;> simp [h]
  have hstate : (scheduleNextFrame prerolling r s).1 =
      { s with
        totalFramesScheduled := s.totalFramesScheduled + 1
        timeCode := s.timeCode.update } := by
    simp only [scheduleNextFrame, if_neg hguard]
  rw [scheduleNextFrame_calls prerolling r s hactive] at he ⊢
  rw [hstate]
  obtain ⟨frame, format, hours, minutes, seconds, frames, flags, hcall⟩ := hembed
  refine ⟨?_, ?_, rfl, rfl, rfl, fun r' hr' => ?_⟩
  · rcases timecodeCalls_run r s _ with ⟨steps, hcalls, hsteps⟩ | ⟨steps, failed, hcalls, -, -, hsteps⟩
    · rw [hcalls] at he
      rcases List.mem_append.mp he with h | h
      · have := (hsteps e h).2
        rw [hfail] at this
        exact absurd this (by simp)
      · simp at h
        rw [h] at hcall
        simp at hcall
    · rw [hcalls] at he ⊢
      rcases List.mem_append.mp he with h | h
      · have := (hsteps e h).2
        rw [hfail] at this
        exact absurd this (by simp)
      · simp at h
        subst h
        exact ⟨steps, rfl, fun x hx => (hsteps x hx).2⟩
  · rcases timecodeCalls_run r s _ with ⟨steps, hcalls, hsteps⟩ | ⟨steps, failed, hcalls, hfc, -, hsteps⟩
    · rw [hcalls] at he
      rcases List.mem_append.mp he with h | h
      · have := (hsteps e h).2
        rw [hfail] at this
        exact absurd this (by simp)
      · simp at h
        rw [h] at hcall
        simp at hcall
    · rw [hcalls]
      apply videoSchedules_steps
      intro x hx
      rcases List.mem_append.mp hx with h | h
      · exact (hsteps x h).1
      · simp at h
        rw [h]
        exact hfc
  · have hactive' : prerolling = true ∨
        ({ s with
          totalFramesScheduled := s.totalFramesScheduled + 1
          timeCode := s.timeCode.update } : State).running = true := hactive
    rw [videoSchedules_scheduleNextFrame prerolling r' _ hactive' hr']

theorem scheduleNextFrame_embed_failure_witness :
    (∃ steps : List Event,
        (scheduleNextFrame false { FrameResults.allOk .upperFieldFirst with setVITC1 := false }
          (State.playing .pip modeHD1080p5994 true (Timecode.atFrame 60 4 7) 67 1)).2
          = steps ++ [⟨.setTimecodeFromComponents (some 1) .rp188VITC1 0 0 1 7 .flagDefault, false⟩]
        ∧ ∀ x ∈ steps, x.ok = true)
      ∧ videoSchedules
          (scheduleNextFrame false { FrameResults.allOk .upperFieldFirst with setVITC1 := false }
            (State.playing .pip modeHD1080p5994 true (Timecode.atFrame 60 4 7) 67 1)).2 = []
      ∧ (scheduleNextFrame false { FrameResults.allOk .upperFieldFirst with setVITC1 := false }
          (State.playing .pip modeHD1080p5994 true (Timecode.atFrame 60 4 7) 67 1)).1.running
          = true
      ∧ (scheduleNextFrame false { FrameResults.allOk .upperFieldFirst with setVITC1 := false }
          (State.playing .pip modeHD1080p5994 true (Timecode.atFrame 60 4 7) 67
            1)).1.totalFramesScheduled = 67 + 1
      ∧ (scheduleNextFrame false { FrameResults.allOk .upperFieldFirst with setVITC1 := false }
          (State.playing .pip modeHD1080p5994 true (Timecode.atFrame 60 4 7) 67 1)).1.timeCode
          = (Timecode.atFrame 60 4 7).update
      ∧ ∀ r' : FrameResults, r'.Succeeds →
          videoSchedules (scheduleNextFrame false r'
            (scheduleNextFrame false { FrameResults.allOk .upperFieldFirst with setVITC1 := false }
              (State.playing .pip modeHD1080p5994 true (Timecode.atFrame 60 4 7) 67 1)).1).2
            = [⟨((67 + 1 : Nat) : Int) * 1001, 1001, 60000⟩] :=
  scheduleNextFrame_embed_failure false
    { FrameResults.allOk .upperFieldFirst with setVITC1 := false }
    (State.playing .pip modeHD1080p5994 true (Timecode.atFrame 60 4 7) 67 1)
    ⟨.setTimecodeFromComponents (some 1) .rp188VITC1 0 0 1 7 .flagDefault, false⟩
    (by decide) ⟨_, _, _, _, _, _, _, rfl⟩ rfl

theorem scheduleNextFrame_vitc1_failure_calls :
    (scheduleNextFrame false { FrameResults.allOk .upperFieldFirst with setVITC1 := false }
        (State.playing .pip modeHD1080p5994 true (Timecode.atFrame 60 4 7) 67 1)).2
      = [⟨.setTimecodeFromComponents (some 1) .rp188HighFrameRate 0 0 1 7 .flagDefault, true⟩,
          ⟨.getDisplayMode (.other 0), true⟩,
          ⟨.setTimecodeFromComponents (some 1) .rp188VITC1 0 0 1 7 .flagDefault, false⟩] := by
  decide

/-! ## Failure of a setup step -/

theorem stopRunning_idle (s : State) :
    (stopRunning s).1.running = false
      ∧ (stopRunning s).1.videoFrameBlack = none
      ∧ (stopRunning s).1.videoFrameBars = none
      ∧ (stopRunning s).1.audioBuffer = false
      ∧ (⟨.disableAudioOutput, true⟩ : Event) ∈ (stopRunning s).2
      ∧ (⟨.disableVideoOutput, true⟩ : Event) ∈ (stopRunning s).2
      ∧ videoSchedules (stopRunning s).2 = [] := by
  refine ⟨rfl, rfl, rfl, rfl, ?_, ?_, ?_⟩
  · simp [stopRunning]
  · simp [stopRunning]
  · cases hr : s.running <;> cases hb : s.videoFrameBlack <;> cases hc : s.videoFrameBars <;>
      cases ha : s.audioBuffer <;> simp [stopRunning, videoSchedules, hr, hb, hc, ha]

theorem startRunning_checked_failure (ui : Selection) (r : StartResults) (s : State)
    (hfail : r.displayMode = none ∨ r.attributes = false ∨ r.enableVideoOutput = false
      ∨ r.enableAudioOutput = false ∨ r.malloc = false ∨ r.beginAudioPreroll = false) :
    (startRunning ui r s).1.running = false
      ∧ (startRunning ui r s).1.videoFrameBlack = none
      ∧ (startRunning ui r s).1.videoFrameBars = none
      ∧ (startRunning ui r s).1.audioBuffer = false
      ∧ (⟨.disableAudioOutput, true⟩ : Event) ∈ (startRunning ui r s).2
      ∧ (⟨.disableVideoOutput, true⟩ : Event) ∈ (startRunning ui r s).2 := by
  have hbail : ∀ (s' : State) (calls : List Event),
      ((stopRunning s').1, calls ++ (stopRunning s').2).1.running = false
        ∧ ((stopRunning s').1, calls ++ (stopRunning s').2).1.videoFrameBlack = none
        ∧ ((stopRunning s').1, calls ++ (stopRunning s').2).1.videoFrameBars = none
        ∧ ((stopRunning s').1, calls ++ (stopRunning s').2).1.audioBuffer = false
        ∧ (⟨.disableAudioOutput, true⟩ : Event)
            ∈ ((stopRunning s').1, calls ++ (stopRunning s').2).2
        ∧ (⟨.disableVideoOutput, true⟩ : Event)
            ∈ ((stopRunning s').1, calls ++ (stopRunning s').2).2 := by
    intro s' calls
    obtain ⟨h1, h2, h3, h4, h5, h6, -⟩ := stopRunning_idle s'
    exact ⟨h1, h2, h3, h4, List.mem_append_right _ h5, List.mem_append_right _ h6⟩
  unfold startRunning
  simp only
  split
  · exact hbail _ _
  · rename_i mode hmode
    split_ifs <;> first
      | exact hbail _ _
      | (exfalso
         rcases hfail with h | h | h | h | h | h
         · rw [hmode] at h
           exact absurd h (by simp)
         all_goals contradiction)

/-- C12 fails on the code: with 10-bit YUV selected and `ConvertFrame` failing for the black
frame (every other call succeeding), `startRunning` is not aborted: the unconverted frame
becomes `videoFrameBlack`, all 25 preroll frames are scheduled, no output is disabled and
the session ends with `running = true`. -/
theorem startRunning_conversion_failure_ignored :
    (⟨.convertFrame 1 2, false⟩ : Event)
        ∈ (startRunning { Selection.stereo .pip with pixelFormat := .format10BitYUV }
            { StartResults.allOk modePAL .progressiveFrame false with
              black := { CreateFrameResults.allOk 1 2 with convert := false } }
            (State.initial .pal)).2
      ∧ (startRunning { Selection.stereo .pip with pixelFormat := .format10BitYUV }
            { StartResults.allOk modePAL .progressiveFrame false with
              black := { CreateFrameResults.allOk 1 2 with convert := false } }
            (State.initial .pal)).1.videoFrameBlack = some 2
      ∧ (videoSchedules
          (startRunning { Selection.stereo .pip with pixelFormat := .format10BitYUV }
            { StartResults.allOk modePAL .progressiveFrame false with
              black := { CreateFrameResults.allOk 1 2 with convert := false } }
            (State.initial .pal)).2).length = 25
      ∧ (⟨.disableVideoOutput, true⟩ : Event)
        ∉ (startRunning { Selection.stereo .pip with pixelFormat := .format10BitYUV }
            { StartResults.allOk modePAL .progressiveFrame false with
              black := { CreateFrameResults.allOk 1 2 with convert := false } }
            (State.initial .pal)).2
      ∧ (startRunning { Selection.stereo .pip with pixelFormat := .format10BitYUV }
            { StartResults.allOk modePAL .progressiveFrame false with
              black := { CreateFrameResults.allOk 1 2 with convert := false } }
            (State.initial .pal)).1.running = true := by
  decide

theorem startRunning_creation_failure_ignored :
    (startRunning (Selection.stereo .pip)
        { StartResults.allOk modePAL .progressiveFrame false with
          bars := { CreateFrameResults.allOk 3 4 with referenceFrame := none } }
        (State.initial .pal)).1.videoFrameBars = none
      ∧ (videoSchedules
          (startRunning (Selection.stereo .pip)
            { StartResults.allOk modePAL .progressiveFrame false with
              bars := { CreateFrameResults.allOk 3 4 with referenceFrame := none } }
            (State.initial .pal)).2).head?
          = some ⟨0, 1, 25⟩
      ∧ (startRunning (Selection.stereo .pip)
            { StartResults.allOk modePAL .progressiveFrame false with
              bars := { CreateFrameResults.allOk 3 4 with referenceFrame := none } }
            (State.initial .pal)).1.running = true := by
  decide

/-! ## Order of the calls of `stopRunning` -/

/-- C13 corrected: invoked with `running = true`, `stopRunning` first requests the hardware
stop and waits for the stop confirmation, and only then disables the outputs and releases
the pattern frames and the audio buffer; invoked with `running = false` (as on the failure
path of `startRunning`, also after the preroll frames were scheduled) it requests no stop
and does not wait.  In both cases each frame it holds is released once and the buffer freed
once, the pointers are cleared, and a repeated call releases nothing. -/
theorem stopRunning_teardown (s : State) :
    (s.running = true →
        (stopRunning s).2.take 2
            = [⟨.stopScheduledPlayback, true⟩, ⟨.waitPlaybackStopped, true⟩]
          ∧ ((stopRunning s).2.drop 2).filter (·.call.isTeardown)
            = (stopRunning s).2.filter (·.call.isTeardown)
          ∧ (stopRunning s).1.scheduledPlaybackStopped = true)
      ∧ (s.running = false →
          ∀ e ∈ (stopRunning s).2,
            e.call ≠ .stopScheduledPlayback ∧ e.call ≠ .waitPlaybackStopped)
      ∧ ((stopRunning s).2.filter (·.call.isTeardown)).map (·.call)
          = [.disableAudioOutput, .disableVideoOutput]
            ++ s.videoFrameBlack.toList.map Call.release
            ++ s.videoFrameBars.toList.map Call.release
            ++ (if s.audioBuffer then [.free] else [])
      ∧ (stopRunning s).1.videoFrameBlack = none
      ∧ (stopRunning s).1.videoFrameBars = none
      ∧ (stopRunning s).1.audioBuffer = false
      ∧ (stopRunning s).1.running = false
      ∧ ((stopRunning (stopRunning s).1).2.filter (·.call.isTeardown)).map (·.call)
          = [.disableAudioOutput, .disableVideoOutput] := by
  refine ⟨fun hrun => ?_, fun hrun => ?_, ?_, rfl, rfl, rfl, rfl, ?_⟩
  · cases hb : s.videoFrameBlack <;> cases hc : s.videoFrameBars <;> cases ha : s.audioBuffer <;>
      simp [stopRunning, hrun, hb, hc, ha, Call.isTeardown]
  · cases hb : s.videoFrameBlack <;> cases hc : s.videoFrameBars <;> cases ha : s.audioBuffer <;>
      simp [stopRunning, hrun, hb, hc, ha]
  · cases hr : s.running <;> cases hb : s.videoFrameBlack <;> cases hc : s.videoFrameBars <;>
      cases ha : s.audioBuffer <;> simp [stopRunning, hr, hb, hc, ha, Call.isTeardown]
  · simp [stopRunning, Call.isTeardown]

theorem stopRunning_teardown_witness :
    (stopRunning (State.playing .pip modePAL false (Timecode.atFrame 25 0 3) 28 1)).2.take 2
        = [⟨.stopScheduledPlayback, true⟩, ⟨.waitPlaybackStopped, true⟩]
      ∧ ((stopRunning (State.playing .pip modePAL false (Timecode.atFrame 25 0 3) 28 1)).2.filter
          (·.call.isTeardown)).map (·.call)
        = [.disableAudioOutput, .disableVideoOutput, .release 1, .release 3, .free] :=
  ⟨((stopRunning_teardown
      (State.playing .pip modePAL false (Timecode.atFrame 25 0 3) 28 1)).1 rfl).1,
    (stopRunning_teardown
      (State.playing .pip modePAL false (Timecode.atFrame 25 0 3) 28 1)).2.2.1⟩

theorem stopRunning_after_failed_preroll :
    (videoSchedules
        (startRunning (Selection.stereo .pip)
          { StartResults.allOk modePAL .progressiveFrame false with beginAudioPreroll := false }
          (State.initial .pal)).2).length = 25
      ∧ (⟨.stopScheduledPlayback, true⟩ : Event)
        ∉ (startRunning (Selection.stereo .pip)
          { StartResults.allOk modePAL .progressiveFrame false with beginAudioPreroll := false }
          (State.initial .pal)).2
      ∧ (⟨.waitPlaybackStopped, true⟩ : Event)
        ∉ (startRunning (Selection.stereo .pip)
          { StartResults.allOk modePAL .progressiveFrame false with beginAudioPreroll := false }
          (State.initial .pal)).2
      ∧ ((startRunning (Selection.stereo .pip)
          { StartResults.allOk modePAL .progressiveFrame false with beginAudioPreroll := false }
          (State.initial .pal)).2.reverse.take 8).reverse
          = [⟨.beginAudioPreroll, false⟩, ⟨.releaseAttributes, true⟩,
              ⟨.setScreenPreviewCallback false, true⟩, ⟨.disableAudioOutput, true⟩,
              ⟨.disableVideoOutput, true⟩, ⟨.release 1, true⟩, ⟨.release 3, true⟩,
              ⟨.free, true⟩] := by
  decide

/-! ## Row bytes -/

theorem toInt32_of_lt (n : Nat) (h : n < 2 ^ 31) : toInt32 n = n := by
  unfold toInt32
  have h1 : n % 2 ^ 32 = n := Nat.mod_eq_of_lt (by omega)
  rw [h1, if_pos h]

theorem ceil_div_eq (w d : Nat) (hd : 0 < d) :
    ⌈(w : ℚ) / (d : ℚ)⌉ = (((w + (d - 1)) / d : Nat) : Int) := by
  apply eq_of_forall_ge_iff
  intro n
  have hq : (0 : ℚ) < (d : ℚ) := by exact_mod_cast hd
  rw [Int.ceil_le, div_le_iff₀ hq]
  constructor
  · intro h
    have h' : (w : Int) ≤ n * d := by exact_mod_cast h
    have hn : 0 ≤ n := by
      by_contra hneg
      have : n * (d : Int) < 0 := mul_neg_of_neg_of_pos (by omega) (by exact_mod_cast hd)
      omega
    obtain ⟨m, rfl⟩ := Int.eq_ofNat_of_zero_le hn
    have h'' : w ≤ m * d := by exact_mod_cast h'
    have : (w + (d - 1)) / d ≤ m := by
      rw [Nat.div_le_iff_le_mul_add_pred hd]
      have : d * m = m * d := Nat.mul_comm _ _
      omega
    exact_mod_cast this
  · intro h
    have hn : 0 ≤ n := le_trans (Int.natCast_nonneg _) h
    obtain ⟨m, rfl⟩ := Int.eq_ofNat_of_zero_le hn
    have h' : (w + (d - 1)) / d ≤ m := by exact_mod_cast h
    rw [Nat.div_le_iff_le_mul_add_pred hd] at h'
    have : d * m = m * d := Nat.mul_comm _ _
    have h'' : w ≤ m * d := by omega
    exact_mod_cast h''

theorem strideFormula_eq (pixelFormat : PixelFormat) (w : Nat) :
    strideFormula pixelFormat w =
      match pixelFormat with
      | .format8BitYUV => ((w * 2 : Nat) : Int)
      | .format10BitYUV => (((w + 47) / 48 * 128 : Nat) : Int)
      | .format10BitRGB => (((w + 63) / 64 * 256 : Nat) : Int)
      | _ => ((w * 4 : Nat) : Int) := by
  have h48 := ceil_div_eq w 48 (by norm_num)
  have h64 := ceil_div_eq w 64 (by norm_num)
  simp only [Nat.cast_ofNat] at h48 h64
  cases pixelFormat <;> simp [strideFormula, h48, h64]

/-- C14 corrected: for every frame width `w` (a 32-bit unsigned value) for which the stated
value fits the `int` result (is below `2 ^ 31`), `GetRowBytes` returns `w * 2` for 8-bit
YUV, `⌈w / 48⌉ * 128` for 10-bit YUV, `⌈w / 64⌉ * 256` for 10-bit RGB and `w * 4` for 8-bit
ARGB, 8-bit BGRA and every other format; it is a function of the format and width only. -/
theorem GetRowBytes_eq_strideFormula (pixelFormat : PixelFormat) (w : Nat) (hw : w < 2 ^ 32)
    (hfit : strideFormula pixelFormat w < 2 ^ 31) :
    GetRowBytes pixelFormat w = strideFormula pixelFormat w := by
  have hmod : w % 2 ^ 32 = w := Nat.mod_eq_of_lt hw
  rw [strideFormula_eq] at hfit ⊢
  unfold GetRowBytes
  simp only [hmod]
  cases pixelFormat with
  | format10BitYUV =>
    simp only at hfit ⊢
    have h47 : (w + 47) % 2 ^ 32 = w + 47 := Nat.mod_eq_of_lt (by omega)
    rw [h47]
    exact toInt32_of_lt _ (by exact_mod_cast hfit)
  | format10BitRGB =>
    simp only at hfit ⊢
    have h63 : (w + 63) % 2 ^ 32 = w + 63 := Nat.mod_eq_of_lt (by omega)
    rw [h63]
    exact toInt32_of_lt _ (by exact_mod_cast hfit)
  | _ =>
    simp only at hfit ⊢
    exact toInt32_of_lt _ (by exact_mod_cast hfit)

theorem GetRowBytes_eq_strideFormula_witness :
    GetRowBytes .format10BitYUV 1920 = strideFormula .format10BitYUV 1920 :=
  GetRowBytes_eq_strideFormula .format10BitYUV 1920 (by decide)
    (by rw [strideFormula_eq]; decide)

theorem GetRowBytes_hd :
    GetRowBytes .format8BitYUV 1920 = 3840 ∧ GetRowBytes .format10BitYUV 1920 = 5120
      ∧ GetRowBytes .format10BitRGB 1920 = 7680 ∧ GetRowBytes .format8BitARGB 1920 = 7680
      ∧ GetRowBytes .format8BitBGRA 1920 = 7680 ∧ GetRowBytes (.other 0) 1920 = 7680 := by
  decide

theorem GetRowBytes_wraps :
    (1073741824 : Nat) < 2 ^ 32
      ∧ GetRowBytes .format8BitYUV 1073741824 = -2147483648
      ∧ GetRowBytes .format8BitYUV 1073741824 ≠ (1073741824 : Int) * 2 := by
  decide

/-! ## `CreateOutputFrame` -/

/-- C15: when the reference frame is created (conversion instance obtained, first
`CreateVideoFrame` successful): for 8-bit YUV `CreateOutputFrame` returns that very frame,
having created one frame, filled it and issued no conversion; for any other pixel format,
when the second `CreateVideoFrame` and `ConvertFrame` succeed, it returns the frame of the
second call, created with stride `GetRowBytes(pixelFormat, width)`, after converting the
filled reference frame into it; that frame differs from the reference frame whenever the
device hands out distinct frames. -/
theorem CreateOutputFrame_result (pixelFormat : PixelFormat) (width height : Nat)
    (fill : Pattern) (r : CreateFrameResults) (referenceFrame : FrameId)
    (hconverter : r.converter = true) (hreference : r.referenceFrame = some referenceFrame) :
    (pixelFormat = .format8BitYUV →
        (CreateOutputFrame pixelFormat width height fill r).1 = some referenceFrame
          ∧ createdFrames (CreateOutputFrame pixelFormat width height fill r).2
            = [⟨.createVideoFrame width height (GetRowBytes .format8BitYUV width)
                .format8BitYUV, true⟩]
          ∧ conversions (CreateOutputFrame pixelFormat width height fill r).2 = []
          ∧ (⟨.fillFrame fill referenceFrame, true⟩ : Event)
            ∈ (CreateOutputFrame pixelFormat width height fill r).2)
      ∧ (pixelFormat ≠ .format8BitYUV →
          ∀ scheduleFrame : FrameId, r.scheduleFrame = some scheduleFrame → r.convert = true →
            (CreateOutputFrame pixelFormat width height fill r).1 = some scheduleFrame
              ∧ createdFrames (CreateOutputFrame pixelFormat width height fill r).2
                = [⟨.createVideoFrame width height (GetRowBytes .format8BitYUV width)
                    .format8BitYUV, true⟩,
                  ⟨.createVideoFrame width height (GetRowBytes pixelFormat width) pixelFormat,
                    true⟩]
              ∧ conversions (CreateOutputFrame pixelFormat width height fill r).2
                = [⟨.convertFrame referenceFrame scheduleFrame, true⟩]
              ∧ (⟨.fillFrame fill referenceFrame, true⟩ : Event)
                ∈ (CreateOutputFrame pixelFormat width height fill r).2
              ∧ (scheduleFrame ≠ referenceFrame →
                (CreateOutputFrame pixelFormat width height fill r).1 ≠ some referenceFrame)) := by
  refine ⟨fun hfmt => ?_, fun hfmt scheduleFrame hschedule hconvert => ?_⟩
  · subst hfmt
    simp [CreateOutputFrame, hconverter, hreference, createdFrames, conversions]
  · simp [CreateOutputFrame, hconverter, hreference, hfmt, hschedule, hconvert, createdFrames,
      conversions]

theorem CreateOutputFrame_result_witness :
    (CreateOutputFrame .format8BitYUV 1920 1080 .black (CreateFrameResults.allOk 1 2)).1 = some 1
      ∧ conversions
          (CreateOutputFrame .format8BitYUV 1920 1080 .black (CreateFrameResults.allOk 1 2)).2 = []
      ∧ (CreateOutputFrame .format10BitYUV 1920 1080 .bars (CreateFrameResults.allOk 3 4)).1
          = some 4
      ∧ conversions
          (CreateOutputFrame .format10BitYUV 1920 1080 .bars (CreateFrameResults.allOk 3 4)).2
          = [⟨.convertFrame 3 4, true⟩] :=
  ⟨((CreateOutputFrame_result .format8BitYUV 1920 1080 .black (CreateFrameResults.allOk 1 2) 1
      rfl rfl).1 rfl).1,
    ((CreateOutputFrame_result .format8BitYUV 1920 1080 .black (CreateFrameResults.allOk 1 2) 1
      rfl rfl).1 rfl).2.2.1,
    ((CreateOutputFrame_result .format10BitYUV 1920 1080 .bars (CreateFrameResults.allOk 3 4) 3
      rfl rfl).2 (by decide) 4 rfl rfl).1,
    ((CreateOutputFrame_result .format10BitYUV 1920 1080 .bars (CreateFrameResults.allOk 3 4) 3
      rfl rfl).2 (by decide) 4 rfl rfl).2.2.1⟩

theorem CreateOutputFrame_examples :
    CreateOutputFrame .format8BitYUV 1920 1080 .black (CreateFrameResults.allOk 1 2)
        = (some 1,
            [⟨.createConversionInstance, true⟩,
              ⟨.createVideoFrame 1920 1080 3840 .format8BitYUV, true⟩,
              ⟨.fillFrame .black 1, true⟩, ⟨.addRef 1, true⟩, ⟨.release 1, true⟩,
              ⟨.releaseConversionInstance, true⟩])
      ∧ CreateOutputFrame .format10BitYUV 1920 1080 .bars (CreateFrameResults.allOk 3 4)
        = (some 4,
            [⟨.createConversionInstance, true⟩,
              ⟨.createVideoFrame 1920 1080 3840 .format8BitYUV, true⟩,
              ⟨.fillFrame .bars 3, true⟩,
              ⟨.createVideoFrame 1920 1080 5120 .format10BitYUV, true⟩,
              ⟨.convertFrame 3 4, true⟩, ⟨.release 3, true⟩,
              ⟨.releaseConversionInstance, true⟩]) := by
  decide

/-! ## Metadata queries of `HDRVideoFrame` -/

/-- C16: `GetInt` succeeds exactly for the EOTF identifier (returning the stored EOTF) and the
colorspace identifier (returning the fixed Rec.2020 value); `GetFloat` succeeds exactly for
the twelve identifiers of the primaries, white point, mastering luminances, max CLL and max
FALL, returning the field of that name; for every other identifier each returns
invalid-argument and leaves the caller's value untouched; `GetFlag` and `GetString` return
invalid-argument for every identifier and leave the caller's value untouched. -/
theorem HDRVideoFrame_queries {α : Type} (colorspaceRec2020 : Int) (m : HDRMetadata α)
    (metadataID : MetadataID) (intValue : Int) (floatValue : α) (flagValue : Bool)
    (stringValue : String) :
    ((HDRVideoFrame.GetInt colorspaceRec2020 m metadataID intValue).1 = .S_OK
        ↔ metadataID = .hdrElectroOpticalTransferFunc ∨ metadataID = .colorspace)
      ∧ HDRVideoFrame.GetInt colorspaceRec2020 m .hdrElectroOpticalTransferFunc intValue
          = (.S_OK, m.EOTF)
      ∧ HDRVideoFrame.GetInt colorspaceRec2020 m .colorspace intValue
          = (.S_OK, colorspaceRec2020)
      ∧ ((HDRVideoFrame.GetInt colorspaceRec2020 m metadataID intValue).1 ≠ .S_OK →
          HDRVideoFrame.GetInt colorspaceRec2020 m metadataID intValue
            = (.E_INVALIDARG, intValue))
      ∧ ((HDRVideoFrame.GetFloat m metadataID floatValue).1 = .S_OK
          ↔ metadataID.isFloatValued = true)
      ∧ HDRVideoFrame.GetFloat m .hdrDisplayPrimariesRedX floatValue
          = (.S_OK, m.referencePrimaries.RedX)
      ∧ HDRVideoFrame.GetFloat m .hdrDisplayPrimariesRedY floatValue
          = (.S_OK, m.referencePrimaries.RedY)
      ∧ HDRVideoFrame.GetFloat m .hdrDisplayPrimariesGreenX floatValue
          = (.S_OK, m.referencePrimaries.GreenX)
      ∧ HDRVideoFrame.GetFloat m .hdrDisplayPrimariesGreenY floatValue
          = (.S_OK, m.referencePrimaries.GreenY)
      ∧ HDRVideoFrame.GetFloat m .hdrDisplayPrimariesBlueX floatValue
          = (.S_OK, m.referencePrimaries.BlueX)
      ∧ HDRVideoFrame.GetFloat m .hdrDisplayPrimariesBlueY floatValue
          = (.S_OK, m.referencePrimaries.BlueY)
      ∧ HDRVideoFrame.GetFloat m .hdrWhitePointX floatValue
          = (.S_OK, m.referencePrimaries.WhiteX)
      ∧ HDRVideoFrame.GetFloat m .hdrWhitePointY floatValue
          = (.S_OK, m.referencePrimaries.WhiteY)
      ∧ HDRVideoFrame.GetFloat m .hdrMaxDisplayMasteringLuminance floatValue
          = (.S_OK, m.maxDisplayMasteringLuminance)
      ∧ HDRVideoFrame.GetFloat m .hdrMinDisplayMasteringLuminance floatValue
          = (.S_OK, m.minDisplayMasteringLuminance)
      ∧ HDRVideoFrame.GetFloat m .hdrMaximumContentLightLevel floatValue = (.S_OK, m.maxCLL)
      ∧ HDRVideoFrame.GetFloat m .hdrMaximumFrameAverageLightLevel floatValue
          = (.S_OK, m.maxFALL)
      ∧ ((HDRVideoFrame.GetFloat m metadataID floatValue).1 ≠ .S_OK →
          HDRVideoFrame.GetFloat m metadataID floatValue = (.E_INVALIDARG, floatValue))
      ∧ HDRVideoFrame.GetFlag metadataID flagValue = (.E_INVALIDARG, flagValue)
      ∧ HDRVideoFrame.GetString metadataID stringValue = (.E_INVALIDARG, stringValue) := by
  refine ⟨?_, rfl, rfl, ?_, ?_, rfl, rfl, rfl, rfl, rfl, rfl, rfl, rfl, rfl, rfl, rfl, rfl, ?_,
    rfl, rfl⟩
  · cases metadataID <;> simp [HDRVideoFrame.GetInt]
  · cases metadataID <;> simp [HDRVideoFrame.GetInt]
  · cases metadataID <;> simp [HDRVideoFrame.GetFloat, MetadataID.isFloatValued]
  · cases metadataID <;> simp [HDRVideoFrame.GetFloat]

theorem HDRVideoFrame_sample_queries :
    HDRVideoFrame.GetInt 7 HDRMetadata.sample .hdrElectroOpticalTransferFunc 0 = (.S_OK, 2)
      ∧ HDRVideoFrame.GetInt 7 HDRMetadata.sample .colorspace 0 = (.S_OK, 7)
      ∧ HDRVideoFrame.GetInt 7 HDRMetadata.sample .hdrWhitePointX 41 = (.E_INVALIDARG, 41)
      ∧ HDRVideoFrame.GetFloat HDRMetadata.sample .hdrWhitePointX 41 = (.S_OK, 7)
      ∧ HDRVideoFrame.GetFloat HDRMetadata.sample .hdrMaximumContentLightLevel 41 = (.S_OK, 11)
      ∧ HDRVideoFrame.GetFloat HDRMetadata.sample .colorspace 41 = (.E_INVALIDARG, 41)
      ∧ HDRVideoFrame.GetFloat HDRMetadata.sample (.other 5) 41 = (.E_INVALIDARG, 41) := by
  decide

/-! ## `FillColourBars` -/

theorem barIndex_lt (w x : Nat) (hx : x < w) : barIndex w x < 8 := by
  unfold barIndex
  rw [Nat.div_lt_iff_lt_mul (by omega)]
  omega

/-- C18: for every frame width `w > 0` and column `x < w`, the index `(x * 8) / w` computed in
32-bit unsigned arithmetic (wrap-around of `x * 8` included) is below 8, so the lookup into
the 8-entry table is in bounds; when `x * 8` does not wrap the index is non-decreasing in
`x`; the table is the HD palette exactly when `w > 720` and the SD palette otherwise. -/
theorem barIndex_in_bounds (w x : Nat) (hw : 0 < w) (hx : x < w) :
    barIndex w x < 8
      ∧ barIndex w x < (colourBars w).length
      ∧ (colourBarWord w x).isSome = true
      ∧ (∀ y, x ≤ y → y < w → y * 8 < 2 ^ 32 → barIndex w x ≤ barIndex w y)
      ∧ (colourBars w = gHD75pcColourBars ↔ 720 < w)
      ∧ (colourBars w = gSD75pcColourBars ↔ w ≤ 720) := by
  have hlen : (colourBars w).length = 8 := by
    unfold colourBars
    split_ifs <;> rfl
  have hne : gHD75pcColourBars ≠ gSD75pcColourBars := by decide
  refine ⟨barIndex_lt w x hx, ?_, ?_, ?_, ?_, ?_⟩
  · rw [hlen]
    exact barIndex_lt w x hx
  · unfold colourBarWord
    rw [List.getElem?_eq_getElem (by rw [hlen]; exact barIndex_lt w x hx)]
    rfl
  · intro y hxy _ hy
    unfold barIndex
    rw [Nat.mod_eq_of_lt hy, Nat.mod_eq_of_lt (by omega)]
    exact Nat.div_le_div_right (by omega)
  · unfold colourBars
    split_ifs with h
    · simp [h]
    · simp only [h, iff_false]
      exact fun heq => hne heq.symm
  · unfold colourBars
    split_ifs with h
    · simp only [show ¬ w ≤ 720 by omega, iff_false]
      exact hne
    · simp
      omega

theorem barIndex_in_bounds_witness :
    barIndex 1920 1918 < 8
      ∧ barIndex 1920 1918 < (colourBars 1920).length
      ∧ (colourBarWord 1920 1918).isSome = true
      ∧ (∀ y, 1918 ≤ y → y < 1920 → y * 8 < 2 ^ 32 → barIndex 1920 1918 ≤ barIndex 1920 y)
      ∧ (colourBars 1920 = gHD75pcColourBars ↔ 720 < 1920)
      ∧ (colourBars 1920 = gSD75pcColourBars ↔ 1920 ≤ 720) :=
  barIndex_in_bounds 1920 1918 (by decide) (by decide)

theorem FillColourBars_examples :
    barIndex 1920 1918 = 7 ∧ colourBarWord 1920 1918 = some 0x10801080
      ∧ colourBarWord 720 0 = some 0xeb80eb80
      ∧ barIndex 4294967295 4294967294 = 0
      ∧ FillColourBars 16 2
        = some [0xeb80eb80, 0xa28ea22c, 0x832c839c, 0x703a7048, 0x54c654b8, 0x41d44164,
            0x237223d4, 0x10801080, 0xeb80eb80, 0xa28ea22c, 0x832c839c, 0x703a7048, 0x54c654b8,
            0x41d44164, 0x237223d4, 0x10801080] := by
  decide

/-! ## Timecode family per display mode -/

theorem startRunning_timeCodeFormat (ui : Selection) (r : StartResults) (s : State)
    (mode : DisplayMode) (hmode : r.displayMode = some mode) (hattributes : r.attributes = true) :
    (startRunning ui r s).1.selectedDisplayMode = s.selectedDisplayMode
      ∧ (startRunning ui r s).1.timeCodeFormat
          = if s.selectedDisplayMode.isLegacy = true then .vitc else .rp188Any := by
  unfold startRunning
  simp only [hmode, hattributes]
  split_ifs <;> simp_all [stopRunning, preroll_state, DisplayModeId.isLegacy]

/-- C17 corrected: with the timecode format chosen by `startRunning` (VITC for the two NTSC
variants and PAL, RP188 otherwise) and every device call of the frame succeeding: a frame
of a legacy mode carries exactly one embed, on the VITC track, and no RP188 embed; a frame
of any other mode carries at least one RP188 embed (VITC1, VITC2 or the high-frame-rate
carrier) when the mode is not progressive, or `framesPerSecond ≤ 60`, or the device supports
high-frame-rate timecode; a progressive mode above 60 frames per second on a device
without that support carries no embed at all. -/
theorem scheduleNextFrame_timecode_family (prerolling : Bool) (r : FrameResults) (s : State)
    (dominance : FieldDominance)
    (hactive : prerolling = true ∨ s.running = true)
    (hr : r.Succeeds) (hmode : r.displayMode = some dominance)
    (hformat : s.timeCodeFormat
      = if s.selectedDisplayMode.isLegacy = true then .vitc else .rp188Any) :
    (s.selectedDisplayMode.isLegacy = true →
        embedsOn [.vitc, .rp188Any, .rp188VITC1, .rp188VITC2, .rp188HighFrameRate]
            (scheduleNextFrame prerolling r s).2
          = [⟨.vitc, s.timeCode.hours, s.timeCode.minutes, s.timeCode.seconds,
              s.timeCode.frames, .flagDefault⟩])
      ∧ (s.selectedDisplayMode.isLegacy = false →
          (dominance ≠ .progressiveFrame ∨ s.framesPerSecond ≤ 60 ∨ s.hfrtcSupported = true) →
          embedsOn [.vitc] (scheduleNextFrame prerolling r s).2 = []
            ∧ embedsOn [.rp188VITC1, .rp188VITC2, .rp188HighFrameRate]
                (scheduleNextFrame prerolling r s).2 ≠ [])
      ∧ (s.selectedDisplayMode.isLegacy = false → dominance = .progressiveFrame →
          60 < s.framesPerSecond → s.hfrtcSupported = false →
          embedsOn [.vitc, .rp188Any, .rp188VITC1, .rp188VITC2, .rp188HighFrameRate]
              (scheduleNextFrame prerolling r s).2 = []
            ∧ videoSchedules (scheduleNextFrame prerolling r s).2
              = [⟨(s.totalFramesScheduled : Int) * s.frameDuration, s.frameDuration,
                  s.frameTimescale⟩]) := by
  obtain ⟨h1, h2, -, h4, h5, h6⟩ := hr
  rw [scheduleNextFrame_calls prerolling r s hactive]
  refine ⟨fun hlegacy => ?_, fun hlegacy hcarrier => ?_, fun hlegacy hprog hfps hhfr => ?_⟩
  · rw [hlegacy, if_pos rfl] at hformat
    simp [timecodeCalls, hformat, h1, Event.seq, embedsOn]
  · rw [hlegacy] at hformat
    simp only [Bool.false_eq_true, if_false] at hformat
    have hne : s.timeCodeFormat ≠ .vitc := by rw [hformat]; decide
    simp only [timecodeCalls, if_neg hne, hmode, h2, h4, h5]
    cases hs : s.hfrtcSupported
    · have hsel : (selectTracks dominance s.framesPerSecond s.timeCode.frames).setVITC1Timecode
            = true
          ∨ (selectTracks dominance s.framesPerSecond s.timeCode.frames).setVITC2Timecode
            = true := by
        unfold selectTracks
        rcases hcarrier with h | h | h
        · simp [h]
        · split_ifs <;> simp_all
        · rw [hs] at h
          exact absurd h (by simp)
      cases hs1 : (selectTracks dominance s.framesPerSecond s.timeCode.frames).setVITC1Timecode <;>
        cases hs2 : (selectTracks dominance s.framesPerSecond s.timeCode.frames).setVITC2Timecode <;>
        simp_all [Event.seq, embedsOn]
    · cases hs1 : (selectTracks dominance s.framesPerSecond s.timeCode.frames).setVITC1Timecode <;>
        cases hs2 : (selectTracks dominance s.framesPerSecond s.timeCode.frames).setVITC2Timecode <;>
        simp [Event.seq, embedsOn, hs1, hs2]
  · rw [hlegacy] at hformat
    simp only [Bool.false_eq_true, if_false] at hformat
    have hne : s.timeCodeFormat ≠ .vitc := by rw [hformat]; decide
    have h30 : ¬ s.framesPerSecond ≤ 30 := by omega
    have h60 : ¬ s.framesPerSecond ≤ 60 := by omega
    subst hprog
    simp [timecodeCalls, hne, hmode, hhfr, selectTracks, h30, h60, Event.seq, embedsOn,
      videoSchedules]

theorem scheduleNextFrame_timecode_family_witness :
    embedsOn [.vitc]
        (scheduleNextFrame false (FrameResults.allOk .progressiveFrame)
          (State.playing .pip modeHD1080p5994 false (Timecode.atFrame 60 4 7) 67 1)).2 = []
      ∧ embedsOn [.rp188VITC1, .rp188VITC2, .rp188HighFrameRate]
          (scheduleNextFrame false (FrameResults.allOk .progressiveFrame)
            (State.playing .pip modeHD1080p5994 false (Timecode.atFrame 60 4 7) 67 1)).2 ≠ [] :=
  (scheduleNextFrame_timecode_family false (FrameResults.allOk .progressiveFrame)
    (State.playing .pip modeHD1080p5994 false (Timecode.atFrame 60 4 7) 67 1) .progressiveFrame
    (Or.inr rfl) (frameResults_allOk_succeeds _) rfl rfl).2.1 rfl (Or.inr (Or.inl (by decide)))

theorem scheduleNextFrame_120p_without_embed :
    (State.playing .pip modeHD1080p120 false (Timecode.atFrame 120 0 7) 127 1).selectedDisplayMode.isLegacy
        = false
      ∧ (State.playing .pip modeHD1080p120 false (Timecode.atFrame 120 0 7) 127 1).framesPerSecond
        = 120
      ∧ (scheduleNextFrame false (FrameResults.allOk .progressiveFrame)
          (State.playing .pip modeHD1080p120 false (Timecode.atFrame 120 0 7) 127 1)).2
        = [⟨.getDisplayMode (.other 0), true⟩, ⟨.scheduleVideoFrame (some 1) 127 1 120, true⟩]
      ∧ embedsOn [.vitc, .rp188Any, .rp188VITC1, .rp188VITC2, .rp188HighFrameRate]
          (scheduleNextFrame false (FrameResults.allOk .progressiveFrame)
            (State.playing .pip modeHD1080p120 false (Timecode.atFrame 120 0 7) 127 1)).2 = [] := by
  decide

theorem scheduleNextFrame_pal_vitc :
    (startRunning (Selection.stereo .pip) (StartResults.allOk modePAL .upperFieldFirst false)
        (State.initial .pal)).1.timeCodeFormat = .vitc
      ∧ embedsOn [.vitc, .rp188Any, .rp188VITC1, .rp188VITC2, .rp188HighFrameRate]
          (scheduleNextFrame false (FrameResults.allOk .upperFieldFirst)
            (startRunning (Selection.stereo .pip)
              (StartResults.allOk modePAL .upperFieldFirst false) (State.initial .pal)).1).2
        = [⟨.vitc, 0, 0, 1, 0, .flagDefault⟩] := by
  decide

/-! ## The pattern frame of each scheduled frame -/

theorem currentFrame_eq (s : State) (hfps : 0 < s.framesPerSecond) :
    currentFrame s =
      match s.outputSignal with
      | .pip =>
        if (s.totalFramesScheduled : Int) % s.framesPerSecond = 0 then s.videoFrameBars
        else s.videoFrameBlack
      | .drop =>
        if (s.totalFramesScheduled : Int) % s.framesPerSecond = 0 then s.videoFrameBlack
        else s.videoFrameBars := by
  unfold currentFrame selectPattern
  cases s.outputSignal <;> simp only [natCast_tmod_eq_zero_iff _ _ hfps] <;> split_ifs <;> rfl

theorem frameOperands_seq (frame : Option FrameId) (call : Call) (ok : Bool) (rest : List Event)
    (hcall : ∀ f, call.frameOperand = some f → f = frame)
    (hrest : ∀ f ∈ frameOperands rest, f = frame) :
    ∀ f ∈ frameOperands (Event.seq call ok rest), f = frame := by
  intro f hf
  simp only [frameOperands, List.mem_filterMap] at hf hrest
  obtain ⟨e, he, hfe⟩ := hf
  unfold Event.seq at he
  rcases List.mem_cons.mp he with rfl | he
  · exact hcall f hfe
  · cases ok with
    | false => simp at he
    | true => exact hrest f ⟨e, by simpa using he, hfe⟩

theorem timecodeCalls_frameOperands (r : FrameResults) (s : State) (rest : List Event)
    (hrest : ∀ f ∈ frameOperands rest, f = currentFrame s) :
    ∀ f ∈ frameOperands (timecodeCalls r s rest), f = currentFrame s := by
  unfold timecodeCalls
  simp only
  repeat' first
    | exact hrest
    | refine frameOperands_seq _ _ _ _ ?_ ?_
    | (intro f hf
       simp only [Call.frameOperand, Option.some.injEq] at hf
       exact hf.symm)
    | (intro f hf
       simp [Call.frameOperand] at hf
       done)
    | split

theorem scheduleNextFrame_frameOperands (prerolling : Bool) (r : FrameResults) (s : State) :
    ∀ f ∈ frameOperands (scheduleNextFrame prerolling r s).2, f = currentFrame s := by
  by_cases hguard : prerolling = false ∧ s.running = false
  · simp [scheduleNextFrame, hguard, frameOperands]
  · simp only [scheduleNextFrame, if_neg hguard]
    apply timecodeCalls_frameOperands
    intro f hf
    simp [frameOperands, Call.frameOperand] at hf
    exact hf

theorem scheduledFrames_scheduleNextFrame (prerolling : Bool) (r : FrameResults) (s : State)
    (hactive : prerolling = true ∨ s.running = true) (hr : r.Succeeds) :
    scheduledFrames (scheduleNextFrame prerolling r s).2 = [currentFrame s] := by
  rw [scheduleNextFrame_calls prerolling r s hactive]
  obtain ⟨h1, h2, h3, h4, h5, h6⟩ := hr
  obtain ⟨dominance, hd⟩ := Option.isSome_iff_exists.mp h3
  simp only [timecodeCalls, hd, h1, h2, h4, h5]
  by_cases hf : s.timeCodeFormat = .vitc
  · simp [hf, Event.seq, scheduledFrames]
  · cases hs : s.hfrtcSupported <;>
      cases hs1 : (selectTracks dominance s.framesPerSecond s.timeCode.frames).setVITC1Timecode <;>
      cases hs2 : (selectTracks dominance s.framesPerSecond s.timeCode.frames).setVITC2Timecode <;>
      simp [hf, Event.seq, scheduledFrames, hs1, hs2]

/-- C6: for `framesPerSecond > 0` and frame index `n = totalFramesScheduled`, the frame
`scheduleNextFrame` selects, embeds timecode on and passes to `ScheduleVideoFrame` is, for
pattern "pip", the bars frame exactly when `n mod framesPerSecond = 0` and the black frame
otherwise, and for pattern "dropout" the black frame exactly when `n mod framesPerSecond = 0`
and the bars frame otherwise; among any `framesPerSecond` consecutive indices exactly one
selects the once-per-second frame. -/
theorem scheduleNextFrame_selects_pattern_frame (prerolling : Bool) (r : FrameResults)
    (s : State) (hfps : 0 < s.framesPerSecond) :
    (currentFrame s =
        match s.outputSignal with
        | .pip =>
          if (s.totalFramesScheduled : Int) % s.framesPerSecond = 0 then s.videoFrameBars
          else s.videoFrameBlack
        | .drop =>
          if (s.totalFramesScheduled : Int) % s.framesPerSecond = 0 then s.videoFrameBlack
          else s.videoFrameBars)
      ∧ (∀ f ∈ frameOperands (scheduleNextFrame prerolling r s).2,
          f = match s.outputSignal with
              | .pip =>
                if (s.totalFramesScheduled : Int) % s.framesPerSecond = 0 then s.videoFrameBars
                else s.videoFrameBlack
              | .drop =>
                if (s.totalFramesScheduled : Int) % s.framesPerSecond = 0 then s.videoFrameBlack
                else s.videoFrameBars)
      ∧ ((prerolling = true ∨ s.running = true) → r.Succeeds →
          scheduledFrames (scheduleNextFrame prerolling r s).2
            = [match s.outputSignal with
                | .pip =>
                  if (s.totalFramesScheduled : Int) % s.framesPerSecond = 0 then s.videoFrameBars
                  else s.videoFrameBlack
                | .drop =>
                  if (s.totalFramesScheduled : Int) % s.framesPerSecond = 0 then s.videoFrameBlack
                  else s.videoFrameBars])
      ∧ (s.videoFrameBars ≠ s.videoFrameBlack →
          (currentFrame s
              = (match s.outputSignal with
                  | .pip => s.videoFrameBars
                  | .drop => s.videoFrameBlack)
            ↔ (s.totalFramesScheduled : Int) % s.framesPerSecond = 0)
          ∧ ∀ k : Nat, ∃! m : Nat, k ≤ m ∧ (m : Int) < k + s.framesPerSecond
              ∧ currentFrame { s with totalFramesScheduled := m }
                = match s.outputSignal with
                  | .pip => s.videoFrameBars
                  | .drop => s.videoFrameBlack) := by
  have hcurrent := currentFrame_eq s hfps
  refine ⟨hcurrent, ?_, ?_, fun hdistinct => ?_⟩
  · intro f hf
    rw [← hcurrent]
    exact scheduleNextFrame_frameOperands prerolling r s f hf
  · intro hactive hr
    rw [← hcurrent]
    exact scheduledFrames_scheduleNextFrame prerolling r s hactive hr
  · have hiff : ∀ m : Nat,
        currentFrame { s with totalFramesScheduled := m }
            = (match s.outputSignal with
                | .pip => s.videoFrameBars
                | .drop => s.videoFrameBlack)
          ↔ (m : Int) % s.framesPerSecond = 0 := by
      intro m
      rw [currentFrame_eq { s with totalFramesScheduled := m } hfps]
      cases hsig : s.outputSignal <;> simp only [hsig] <;> split_ifs with h
      · simp [h]
      · simp only [h, iff_false]
        exact fun heq => hdistinct heq.symm
      · simp [h]
      · simp only [h, iff_false]
        exact hdistinct
    refine ⟨hiff s.totalFramesScheduled, fun k => ?_⟩
    simpa only [hiff] using exists_unique_index_in_second s.framesPerSecond hfps k

theorem scheduleNextFrame_selects_pattern_frame_witness :
    scheduledFrames
        (scheduleNextFrame false (FrameResults.allOk .progressiveFrame)
          (State.playing .pip modePAL false (Timecode.atFrame 25 0 0) 50 2)).2 = [some 3]
      ∧ scheduledFrames
        (scheduleNextFrame false (FrameResults.allOk .progressiveFrame)
          (State.playing .pip modePAL false (Timecode.atFrame 25 0 1) 51 2)).2 = [some 1]
      ∧ scheduledFrames
        (scheduleNextFrame false (FrameResults.allOk .progressiveFrame)
          (State.playing .drop modePAL false (Timecode.atFrame 25 0 0) 50 2)).2 = [some 1]
      ∧ scheduledFrames
        (scheduleNextFrame false (FrameResults.allOk .progressiveFrame)
          (State.playing .drop modePAL false (Timecode.atFrame 25 0 1) 51 2)).2 = [some 3] :=
  ⟨((scheduleNextFrame_selects_pattern_frame false (FrameResults.allOk .progressiveFrame)
      (State.playing .pip modePAL false (Timecode.atFrame 25 0 0) 50 2) (by decide)).2.2.1
        (Or.inr rfl) (frameResults_allOk_succeeds _)).trans (by decide),
    ((scheduleNextFrame_selects_pattern_frame false (FrameResults.allOk .progressiveFrame)
      (State.playing .pip modePAL false (Timecode.atFrame 25 0 1) 51 2) (by decide)).2.2.1
        (Or.inr rfl) (frameResults_allOk_succeeds _)).trans (by decide),
    ((scheduleNextFrame_selects_pattern_frame false (FrameResults.allOk .progressiveFrame)
      (State.playing .drop modePAL false (Timecode.atFrame 25 0 0) 50 2) (by decide)).2.2.1
        (Or.inr rfl) (frameResults_allOk_succeeds _)).trans (by decide),
    ((scheduleNextFrame_selects_pattern_frame false (FrameResults.allOk .progressiveFrame)
      (State.playing .drop modePAL false (Timecode.atFrame 25 0 1) 51 2) (by decide)).2.2.1
        (Or.inr rfl) (frameResults_allOk_succeeds _)).trans (by decide)⟩

theorem scheduleNextFrame_pip_frames :
    frameOperands
        (scheduleNextFrame false (FrameResults.allOk .upperFieldFirst)
          (State.playing .pip modePAL true (Timecode.atFrame 25 0 0) 50 2)).2
        = [some 3, some 3, some 3, some 3]
      ∧ frameOperands
        (scheduleNextFrame false (FrameResults.allOk .upperFieldFirst)
          (State.playing .pip modePAL true (Timecode.atFrame 25 0 1) 51 2)).2
        = [some 1, some 1, some 1, some 1] := by
  decide

end SignalGenerator
